import Mathlib

/-!
Verification of the TradePilot quantitative core (`py-engine/app`) against its
natural-language specification.

The Python source operates on pandas DataFrames.  Every indicator used here is
causal: the value in row `i` of a computed column depends only on rows `0..i`.
The embedding therefore represents each column by a function giving the value
at the *last* row of a bar list, and recovers the full column as the map of
that function over the non-empty prefixes of the list (`inits1`).  `NaN`
entries of float columns are represented by `Option ℚ`: a column that pandas
proves free of `NaN` (e.g. an `ewm` of a `NaN`-free series) is given the plain
type `ℚ`.  Floats are modelled as rationals; Python's banker's rounding
(`round`, `:.0f`) is `roundHalfEven`.
-/

namespace TradePilot

/-- Python `round` / numpy rounding: round half to even, as an integer. -/
def roundHalfEven (x : ℚ) : ℤ :=
  if x - ⌊x⌋ < 1/2 then ⌊x⌋
  else if 1/2 < x - ⌊x⌋ then ⌊x⌋ + 1
  else if ⌊x⌋ % 2 = 0 then ⌊x⌋ else ⌊x⌋ + 1

/-- Python `round(x, d)` for rationals. -/
def roundTo (d : ℕ) (x : ℚ) : ℚ :=
  (roundHalfEven (x * (10:ℚ)^d) : ℚ) / (10:ℚ)^d

/-- `IndicatorEngine._safe_round`: `None`/`NaN` stays absent, otherwise round. -/
def safeRound (d : ℕ) (v : Option ℚ) : Option ℚ := v.map (roundTo d)

/-- The `max(0, min(100, score))` clamp ending every confidence sub-scorer. -/
def pyClamp (x : ℚ) : ℚ := max 0 (min 100 x)

/-- Python `x or 0` applied to an optional rounded float (`None` and `0.0`
both give `0`, which is the same rational). -/
def orZero (v : Option ℚ) : ℚ := v.getD 0

-- ─── List combinators (columns as maps over non-empty prefixes) ───────────

/-- Non-empty prefixes of a list, in increasing length order. -/
def inits1 : List α → List (List α)
  | [] => []
  | x :: xs => [x] :: (inits1 xs).map (fun p => x :: p)

/-- The trailing window of `w` elements (all of `xs` if shorter). -/
def lastN (w : ℕ) (xs : List α) : List α := xs.drop (xs.length - w)

/-- Arithmetic mean (0 on the empty list; callers guard non-emptiness). -/
def qMean (xs : List ℚ) : ℚ := xs.sum / (xs.length : ℚ)

/-- Minimum of a rational list, `none` when empty. -/
def listMin : List ℚ → Option ℚ
  | [] => none
  | h :: t => some (t.foldl min h)

/-- Maximum of a rational list, `none` when empty. -/
def listMax : List ℚ → Option ℚ
  | [] => none
  | h :: t => some (t.foldl max h)

/-- pandas `.min()` over a slice that may contain `NaN`: skip the `NaN`s,
`NaN` (here `none`) when nothing is left. -/
def nanMin (xs : List (Option ℚ)) : Option ℚ := listMin xs.reduceOption

/-- pandas `.max()` over a slice that may contain `NaN`. -/
def nanMax (xs : List (Option ℚ)) : Option ℚ := listMax xs.reduceOption

/-- Last value of `Series.ewm(alpha, adjust=False).mean()` on a `NaN`-free
series: the recurrence `y_t = y_(t-1) + alpha*(x_t - y_(t-1))` (0 for an
empty series, which no caller uses). -/
def ewmLast (a : ℚ) : List ℚ → ℚ
  | [] => 0
  | h :: t => t.foldl (fun acc x => acc + a * (x - acc)) h

/-- Last value of `ewm(span, adjust=False).mean()` with `alpha = 2/(span+1)`. -/
def ewmSpanLast (span : ℚ) (xs : List ℚ) : ℚ := ewmLast (2 / (span + 1)) xs

/-- Last value of `ewm(adjust=False, ignore_na=False).mean()` on a series with
`NaN`s (used only for `adx = dx.ewm(...)`): pandas weights valid observations
by absolute position, which the numerator/denominator fold reproduces;
`none` before the first valid observation. -/
def ewmNaLast (a : ℚ) (xs : List (Option ℚ)) : Option ℚ :=
  let nd := xs.foldl
    (fun (p : ℚ × ℚ) ox =>
      let num := (1 - a) * p.1
      let den := (1 - a) * p.2
      match ox with
      | none => (num, den)
      | some x => if den = 0 then (x, 1) else (num + a * x, den + a))
    (0, 0)
  if nd.2 = 0 then none else some (nd.1 / nd.2)

/-- Last value of `Series.rolling(w).mean()` (default `min_periods = w`). -/
def rollingLastMean (w : ℕ) (xs : List ℚ) : Option ℚ :=
  if w ≤ xs.length then some (qMean (lastN w xs)) else none

/-- Last value of `Series.rolling(w).sum()`. -/
def rollingLastSum (w : ℕ) (xs : List ℚ) : Option ℚ :=
  if w ≤ xs.length then some ((lastN w xs).sum) else none

/-- Last value of `Series.rolling(w).min()` on a `NaN`-free series. -/
def rollingLastMin (w : ℕ) (xs : List ℚ) : Option ℚ :=
  if w ≤ xs.length then listMin (lastN w xs) else none

/-- Last value of `rolling(w).mean()` on a series with `NaN`s: defined only
when the window holds `w` non-`NaN` observations (`min_periods = w`). -/
def rollingLastMeanO (w : ℕ) (xs : List (Option ℚ)) : Option ℚ :=
  if w ≤ xs.length ∧ (lastN w xs).all (·.isSome) then
    some (qMean (lastN w xs).reduceOption)
  else none

/-- Last value of `rolling(w).min()` on a series with `NaN`s, `min_periods = w`. -/
def rollingLastMinO (w : ℕ) (xs : List (Option ℚ)) : Option ℚ :=
  if w ≤ xs.length ∧ (lastN w xs).all (·.isSome) then
    listMin (lastN w xs).reduceOption
  else none

/-- Last value of `rolling(w).max()` on a series with `NaN`s, `min_periods = w`. -/
def rollingLastMaxO (w : ℕ) (xs : List (Option ℚ)) : Option ℚ :=
  if w ≤ xs.length ∧ (lastN w xs).all (·.isSome) then
    listMax (lastN w xs).reduceOption
  else none

/-- Newton iteration approximating float `sqrt` (only used for the numeric
values of the Bollinger band edges, which no theorem inspects; non-positive
inputs give 0 like `sqrt(0)`). -/
def qSqrt (x : ℚ) : ℚ :=
  if x ≤ 0 then 0 else (List.range 8).foldl (fun y _ => (y + x / y) / 2) (max x 1)

/-- Last value of `Series.rolling(w).std()` (sample std, `ddof = 1`). -/
def sampleStdLast (w : ℕ) (xs : List ℚ) : Option ℚ :=
  if w ≤ xs.length then
    some (qSqrt (((lastN w xs).map (fun x => (x - qMean (lastN w xs))^2)).sum / (w - 1 : ℚ)))
  else none

-- ─── Enumerations of `models/schemas.py` ──────────────────────────────────

/-- `Direction` enum. -/
inductive Direction
  | bullish
  | bearish
  | neutral
deriving DecidableEq

/-- `TradeType` enum. -/
inductive TradeType
  | day_trade
  | swing
deriving DecidableEq

/-- `RegimeType` enum. -/
inductive RegimeType
  | strong_uptrend
  | uptrend
  | range_bound
  | downtrend
  | strong_downtrend
  | high_volatility
deriving DecidableEq

/-- `EventRisk` enum. -/
inductive EventRisk
  | low
  | moderate
  | high
  | extreme
deriving DecidableEq

/-- `OptionsStrategy` enum. -/
inductive OptionsStrategy
  | long_call
  | long_put
  | bull_call_spread
  | bear_put_spread
  | bull_put_spread
  | bear_call_spread
  | iron_condor
  | straddle
  | strangle
  | stock_only
deriving DecidableEq

/-- Values of the `rsi_divergence` column written by
`_detect_rsi_divergence` ("none" / "bullish_divergence" / "bearish_divergence").
The scorer treats both Python `None` and `"none"` as no-ops, so this
three-valued tag captures the behaviour of the `Optional[str]` schema field. -/
inductive DivTag
  | divNone
  | bullish_divergence
  | bearish_divergence
deriving DecidableEq

/-- Values of `price_vs_vwap` ("at" / "above" / "below"). -/
inductive VwapSide
  | atVwap
  | above
  | below
deriving DecidableEq

-- ─── Bars and `_to_dataframe` ─────────────────────────────────────────────

/-- `OHLCVBar` of `schemas.py` (`open` is a Lean keyword, renamed
`openPrice`; the datetime timestamp is modelled as an integer). -/
structure Bar where
  timestamp : ℤ
  openPrice : ℚ
  high : ℚ
  low : ℚ
  close : ℚ
  volume : ℚ
deriving DecidableEq

/-- Timestamp order used by `df.sort_values("timestamp")`. -/
def barLe (a b : Bar) : Prop := a.timestamp ≤ b.timestamp

instance : DecidableRel barLe := fun a b => inferInstanceAs (Decidable (a.timestamp ≤ b.timestamp))

instance : IsTotal Bar barLe := ⟨fun a b => Int.le_total a.timestamp b.timestamp⟩

instance : IsTrans Bar barLe := ⟨fun _ _ _ h1 h2 => le_trans h1 h2⟩

/-- `IndicatorEngine._to_dataframe`: sorts the bars by timestamp (pandas
`sort_values`; modelled with a stable sort — equal timestamps keep input
order) and proceeds.  Nothing is rejected. -/
def toDataframe (bars : List Bar) : List Bar := List.insertionSort barLe bars

/-- Chronologically ordered input: strictly increasing timestamps (spec §3). -/
def Chrono (bars : List Bar) : Prop :=
  List.Pairwise (fun a b => a.timestamp < b.timestamp) bars

instance (bars : List Bar) : Decidable (Chrono bars) :=
  inferInstanceAs (Decidable (List.Pairwise (fun a b : Bar => a.timestamp < b.timestamp) bars))

/-- Valid bars: positive price fields and non-negative volume (spec §3). -/
def ValidBars (bars : List Bar) : Prop :=
  ∀ b ∈ bars, 0 < b.openPrice ∧ 0 < b.high ∧ 0 < b.low ∧ 0 < b.close ∧ 0 ≤ b.volume

instance (bars : List Bar) : Decidable (ValidBars bars) :=
  inferInstanceAs (Decidable (∀ b ∈ bars, _ ∧ _ ∧ _ ∧ _ ∧ _))

-- ─── Indicator columns (value at the last row of a prefix) ────────────────

/-- The `close` column. -/
def closes (bars : List Bar) : List ℚ := bars.map Bar.close

/-- The `volume` column. -/
def volumes (bars : List Bar) : List ℚ := bars.map Bar.volume

/-- `df.iloc[-1]` (junk bar for the empty frame, which no caller reaches). -/
def lastBar (bars : List Bar) : Bar := (bars.getLast?).getD ⟨0, 0, 0, 0, 0, 0⟩

/-- `df["ema_N"]` at the last row: `close.ewm(span=N, adjust=False).mean()`. -/
def emaAt (span : ℚ) (bars : List Bar) : ℚ := ewmSpanLast span (closes bars)

/-- Gain term of `_compute_rsi` at the last row: `delta.where(delta > 0, 0.0)`;
the first row's `NaN` delta fails the test, giving 0. -/
def gainAt (xs : List ℚ) : ℚ :=
  match xs.getLast?, xs.dropLast.getLast? with
  | some c, some p => if 0 < c - p then c - p else 0
  | _, _ => 0

/-- Loss term of `_compute_rsi` at the last row: `(-delta).where(delta < 0, 0.0)`. -/
def lossAt (xs : List ℚ) : ℚ :=
  match xs.getLast?, xs.dropLast.getLast? with
  | some c, some p => if c - p < 0 then p - c else 0
  | _, _ => 0

/-- The `gain` series. -/
def gainSeries (xs : List ℚ) : List ℚ := (inits1 xs).map gainAt

/-- The `loss` series. -/
def lossSeries (xs : List ℚ) : List ℚ := (inits1 xs).map lossAt

/-- `gain.ewm(alpha=1/period, min_periods=period, adjust=False).mean()` at the
last row: the recurrence runs from the start, `min_periods` masks the first
`period - 1` outputs as `NaN`. -/
def avgGainLast (period : ℕ) (xs : List ℚ) : Option ℚ :=
  if period ≤ xs.length then some (ewmLast (1/(period : ℚ)) (gainSeries xs)) else none

/-- `loss.ewm(alpha=1/period, min_periods=period, adjust=False).mean()` at the
last row. -/
def avgLossLast (period : ℕ) (xs : List ℚ) : Option ℚ :=
  if period ≤ xs.length then some (ewmLast (1/(period : ℚ)) (lossSeries xs)) else none

/-- `IndicatorEngine._compute_rsi` at the last row:
`rs = avg_gain / avg_loss.replace(0, nan)` and `rsi = 100 - 100/(1+rs)`;
a zero average loss becomes `NaN` (`none`), which propagates. -/
def rsiAt (period : ℕ) (xs : List ℚ) : Option ℚ :=
  match avgGainLast period xs, avgLossLast period xs with
  | some g, some l => if l = 0 then none else some (100 - 100 / (1 + g / l))
  | _, _ => none

/-- The `rsi_14`-style column. -/
def rsiSeries (period : ℕ) (xs : List ℚ) : List (Option ℚ) :=
  (inits1 xs).map (rsiAt period)

/-- True range at the last row; the first row's `NaN` shifted-close terms
drop out of the `NaN`-skipping row-wise `max`. -/
def trueRangeAt (bars : List Bar) : ℚ :=
  match bars.getLast?, bars.dropLast.getLast? with
  | some b, some p => max (b.high - b.low) (max |b.high - p.close| |b.low - p.close|)
  | some b, none => b.high - b.low
  | _, _ => 0

/-- The true-range series. -/
def trueRangeSeries (bars : List Bar) : List ℚ := (inits1 bars).map trueRangeAt

/-- `IndicatorEngine._compute_atr`:
`true_range.ewm(span=period, adjust=False).mean()` at the last row. -/
def atrAt (period : ℚ) (bars : List Bar) : ℚ := ewmSpanLast period (trueRangeSeries bars)

/-- `(high + low + close) / 3`. -/
def typicalPrice (b : Bar) : ℚ := (b.high + b.low + b.close) / 3

/-- `IndicatorEngine._compute_vwap` at the last row: rolling 20-bar anchored
VWAP; `np.where(cum_vol > 0, ...)` treats a `NaN` rolling sum (fewer than 20
bars) or a non-positive one as `False` and falls back to the typical price. -/
def vwapAt (bars : List Bar) : ℚ :=
  let tpv := bars.map (fun b => typicalPrice b * b.volume)
  match rollingLastSum 20 (volumes bars) with
  | some s => if 0 < s then ((rollingLastSum 20 tpv).getD 0) / s else typicalPrice (lastBar bars)
  | none => typicalPrice (lastBar bars)

/-- `df["rvol"]` at the last row: `np.where(vol_sma_20 > 0, volume/vol_sma_20, 1.0)`;
a `NaN` 20-bar average volume (fewer than 20 bars) fails the comparison and
yields the constant 1.0. -/
def rvolAt (bars : List Bar) : ℚ :=
  match rollingLastMean 20 (volumes bars) with
  | some m => if 0 < m then (lastBar bars).volume / m else 1
  | none => 1

/-- `df["atr_percent"]` at the last row: `np.where(close > 0, atr/close*100, 0)`. -/
def atrPercentAt (bars : List Bar) : ℚ :=
  if 0 < (lastBar bars).close then atrAt 14 bars / (lastBar bars).close * 100 else 0

/-- `df["bb_middle"]`: 20-bar SMA of closes. -/
def bbMiddleAt (bars : List Bar) : Option ℚ := rollingLastMean 20 (closes bars)

/-- `bb_std`: 20-bar sample standard deviation of closes. -/
def bbStdAt (bars : List Bar) : Option ℚ := sampleStdLast 20 (closes bars)

/-- `df["bb_upper"] = bb_middle + bb_std * 2`. -/
def bbUpperAt (bars : List Bar) : Option ℚ :=
  match bbMiddleAt bars, bbStdAt bars with
  | some m, some s => some (m + s * 2)
  | _, _ => none

/-- `df["bb_lower"] = bb_middle - bb_std * 2`. -/
def bbLowerAt (bars : List Bar) : Option ℚ :=
  match bbMiddleAt bars, bbStdAt bars with
  | some m, some s => some (m - s * 2)
  | _, _ => none

/-- `df["bb_bandwidth"] = np.where(bb_middle > 0, (upper-lower)/middle*100, 0)`:
a plain number (0) wherever the middle band is `NaN` or non-positive. -/
def bbBandwidthAt (bars : List Bar) : ℚ :=
  match bbMiddleAt bars with
  | some m =>
    if 0 < m then (orZero (bbUpperAt bars) - orZero (bbLowerAt bars)) / m * 100 else 0
  | none => 0

/-- The `bb_bandwidth` column. -/
def bbBandwidthSeries (bars : List Bar) : List ℚ := (inits1 bars).map bbBandwidthAt

/-- `df["bb_squeeze"] = bb_bandwidth <= bb_bandwidth.rolling(20).min()`;
a `NaN` rolling minimum compares `False`. -/
def bbSqueezeAt (bars : List Bar) : Bool :=
  match rollingLastMin 20 (bbBandwidthSeries bars) with
  | some m => decide (bbBandwidthAt bars ≤ m)
  | none => false

/-- `df["macd_line"]` at the last row: `EMA12 - EMA26` of closes. -/
def macdLineAt (bars : List Bar) : ℚ :=
  ewmSpanLast 12 (closes bars) - ewmSpanLast 26 (closes bars)

/-- The MACD-line column. -/
def macdLineSeries (bars : List Bar) : List ℚ := (inits1 bars).map macdLineAt

/-- `df["macd_signal"]`: 9-span EMA of the MACD line. -/
def macdSignalAt (bars : List Bar) : ℚ := ewmSpanLast 9 (macdLineSeries bars)

/-- `df["macd_histogram"] = macd_line - macd_signal`. -/
def macdHistogramAt (bars : List Bar) : ℚ := macdLineAt bars - macdSignalAt bars

/-- `plus_dm` of `_compute_adx` at the last row: `high.diff()` kept only when
positive and dominant; the first row's `NaN` diffs fail the test, giving 0. -/
def plusDmAt (bars : List Bar) : ℚ :=
  match bars.getLast?, bars.dropLast.getLast? with
  | some b, some p =>
    let pdm := b.high - p.high
    let mdm := p.low - b.low
    if mdm < pdm ∧ 0 < pdm then pdm else 0
  | _, _ => 0

/-- `minus_dm` of `_compute_adx` at the last row. -/
def minusDmAt (bars : List Bar) : ℚ :=
  match bars.getLast?, bars.dropLast.getLast? with
  | some b, some p =>
    let pdm := b.high - p.high
    let mdm := p.low - b.low
    if pdm < mdm ∧ 0 < mdm then mdm else 0
  | _, _ => 0

/-- `plus_di = 100 * ewm(plus_dm, span=14) / atr`; pandas division by a zero
ATR would give `inf`/`NaN`, modelled as `none` (no stated theorem exercises a
zero ATR). -/
def plusDiAt (bars : List Bar) : Option ℚ :=
  let a := atrAt 14 bars
  if a = 0 then none else some (100 * ewmSpanLast 14 ((inits1 bars).map plusDmAt) / a)

/-- `minus_di = 100 * ewm(minus_dm, span=14) / atr`. -/
def minusDiAt (bars : List Bar) : Option ℚ :=
  let a := atrAt 14 bars
  if a = 0 then none else some (100 * ewmSpanLast 14 ((inits1 bars).map minusDmAt) / a)

/-- `dx = 100 * |+DI - -DI| / (+DI + -DI).replace(0, nan)`. -/
def dxAt (bars : List Bar) : Option ℚ :=
  match plusDiAt bars, minusDiAt bars with
  | some p, some m => if p + m = 0 then none else some (100 * |p - m| / (p + m))
  | _, _ => none

/-- `adx = dx.ewm(span=14, adjust=False).mean()` over a series with `NaN`s. -/
def adxAt (bars : List Bar) : Option ℚ :=
  ewmNaLast (2/15) ((inits1 bars).map dxAt)

/-- `IndicatorEngine._compute_obv` at the last row: running sum seeded at 0,
adding volume on up-closes and subtracting on down-closes. -/
def obvAt (bars : List Bar) : ℚ :=
  match bars with
  | [] => 0
  | b0 :: rest =>
    (rest.foldl
      (fun (p : ℚ × ℚ) b =>
        (b.close,
         if p.1 < b.close then p.2 + b.volume
         else if b.close < p.1 then p.2 - b.volume
         else p.2))
      (b0.close, 0)).2

/-- `df["obv_ema_20"]`: 20-span EMA of OBV. -/
def obvEmaAt (bars : List Bar) : ℚ := ewmSpanLast 20 ((inits1 bars).map obvAt)

/-- Raw stochastic RSI of `_compute_stoch_rsi` at the last row:
`np.where(rsi_max - rsi_min > 0, (rsi - rsi_min)/(rsi_max - rsi_min)*100, 50)`;
any `NaN` in the condition (insufficient history) selects the neutral 50. -/
def stochRawAt (xs : List ℚ) : ℚ :=
  let r := rsiSeries 14 xs
  match rollingLastMaxO 14 r, rollingLastMinO 14 r, rsiAt 14 xs with
  | some M, some m, some rv => if 0 < M - m then (rv - m) / (M - m) * 100 else 50
  | _, _, _ => 50

/-- The raw stochastic-RSI column. -/
def stochRawSeries (xs : List ℚ) : List ℚ := (inits1 xs).map stochRawAt

/-- `%K`: 3-period simple mean of the raw stochastic RSI. -/
def stochKAt (xs : List ℚ) : Option ℚ := rollingLastMean 3 (stochRawSeries xs)

/-- The `%K` column. -/
def stochKSeries (xs : List ℚ) : List (Option ℚ) := (inits1 xs).map stochKAt

/-- `%D`: 3-period simple mean of `%K`. -/
def stochDAt (xs : List ℚ) : Option ℚ := rollingLastMeanO 3 (stochKSeries xs)

/-- `IndicatorEngine._detect_rsi_divergence` at the last row `i = len - 1`:
window `df.iloc[i-14 : i+1]` (15 rows once `i ≥ 18`), comparing the front
10 rows' extreme against the last 5 rows' extreme for price and RSI; RSI
extremes require the guard rows to be non-`NaN`; a bearish finding
overwrites a bullish one; `"none"` below 19 bars. -/
def divergenceAt (bars : List Bar) : DivTag :=
  if bars.length < 19 then DivTag.divNone
  else
    let win := lastN 15 bars
    let winRsi := lastN 15 (rsiSeries 14 (closes bars))
    let lows := win.map Bar.low
    let highs := win.map Bar.high
    let rsiLast := (winRsi.getLast?).getD none
    let rsiFirst := (winRsi.head?).getD none
    let bull : Bool :=
      match listMin (lastN 5 lows), listMin (lows.take 10),
            (if rsiLast.isSome then nanMin (lastN 5 winRsi) else none),
            (if rsiFirst.isSome then nanMin (winRsi.take 10) else none) with
      | some pc, some pp, some rc, some rp => decide (pc < pp ∧ rp < rc)
      | _, _, _, _ => false
    let bear : Bool :=
      match listMax (lastN 5 highs), listMax (highs.take 10),
            (if rsiLast.isSome then nanMax (lastN 5 winRsi) else none),
            (if rsiFirst.isSome then nanMax (winRsi.take 10) else none) with
      | some pc, some pp, some rc, some rp => decide (pp < pc ∧ rc < rp)
      | _, _, _, _ => false
    if bear then DivTag.bearish_divergence
    else if bull then DivTag.bullish_divergence
    else DivTag.divNone

-- ─── Pattern detection (`_detect_patterns`) ───────────────────────────────

/-- The slice of a computed DataFrame row read by `_detect_patterns`
(`Option` marks columns pandas can hold `NaN` in; `close` and the boolean
squeeze column are plain). -/
structure Row where
  close : ℚ
  ema_9 : Option ℚ
  ema_20 : Option ℚ
  ema_50 : Option ℚ
  ema_200 : Option ℚ
  macd_line : Option ℚ
  macd_signal : Option ℚ
  rsi_14 : Option ℚ
  bb_squeeze : Bool
  rvol : Option ℚ
  vwap : Option ℚ
  adx_14 : Option ℚ
  rsi_divergence : DivTag
deriving DecidableEq

/-- The computed DataFrame row at the last bar of a prefix. -/
def rowAt (bars : List Bar) : Row :=
  { close := (lastBar bars).close
    ema_9 := some (emaAt 9 bars)
    ema_20 := some (emaAt 20 bars)
    ema_50 := some (emaAt 50 bars)
    ema_200 := some (emaAt 200 bars)
    macd_line := some (macdLineAt bars)
    macd_signal := some (macdSignalAt bars)
    rsi_14 := rsiAt 14 (closes bars)
    bb_squeeze := bbSqueezeAt bars
    rvol := some (rvolAt bars)
    vwap := some (vwapAt bars)
    adx_14 := adxAt bars
    rsi_divergence := divergenceAt bars }

/-- The computed DataFrame as the list of its rows. -/
def rowsOf (bars : List Bar) : List Row := (inits1 bars).map rowAt

/-- EMA-stack block of `_detect_patterns`:
`ema_9 > ema_20 > ema_50 > ema_200` fully stacked either way. -/
def emaStackPats (latest : Row) : List String :=
  match latest.ema_9, latest.ema_20, latest.ema_50, latest.ema_200 with
  | some e9, some e20, some e50, some e200 =>
    if e20 < e9 ∧ e50 < e20 ∧ e200 < e50 then ["ema_stack_bullish"]
    else if e9 < e20 ∧ e20 < e50 ∧ e50 < e200 then ["ema_stack_bearish"]
    else []
  | _, _, _, _ => []

/-- Golden/death-cross block of `_detect_patterns`: non-strict comparison on
the previous bar, strict on the latest. -/
def crossPats (prev latest : Row) : List String :=
  match latest.ema_50, latest.ema_200, prev.ema_50, prev.ema_200 with
  | some l50, some l200, some p50, some p200 =>
    if p50 ≤ p200 ∧ l200 < l50 then ["golden_cross"]
    else if p200 ≤ p50 ∧ l50 < l200 then ["death_cross"]
    else []
  | _, _, _, _ => []

/-- MACD-crossover block of `_detect_patterns`. -/
def macdPats (prev latest : Row) : List String :=
  match latest.macd_line, latest.macd_signal, prev.macd_line, prev.macd_signal with
  | some ll, some ls, some pl, some ps =>
    if pl ≤ ps ∧ ls < ll then ["macd_bullish_crossover"]
    else if ps ≤ pl ∧ ll < ls then ["macd_bearish_crossover"]
    else []
  | _, _, _, _ => []

/-- RSI-extremes block of `_detect_patterns`. -/
def rsiPats (latest : Row) : List String :=
  match latest.rsi_14 with
  | some r => if 70 < r then ["rsi_overbought"] else if r < 30 then ["rsi_oversold"] else []
  | none => []

/-- Bollinger-squeeze block of `_detect_patterns`. -/
def squeezePats (latest : Row) : List String :=
  if latest.bb_squeeze then ["bollinger_squeeze"] else []

/-- Volume block of `_detect_patterns` (`if rvol >= 2.0 ... elif rvol >= 1.5`). -/
def volumePats (latest : Row) : List String :=
  match latest.rvol with
  | some r => if 2 ≤ r then ["volume_breakout"] else if 3/2 ≤ r then ["elevated_volume"] else []
  | none => []

/-- VWAP reclaim/rejection block of `_detect_patterns`. -/
def vwapPats (prev latest : Row) : List String :=
  match latest.vwap, prev.vwap with
  | some lv, some pv =>
    if prev.close < pv ∧ lv < latest.close then ["vwap_reclaim"]
    else if pv < prev.close ∧ latest.close < lv then ["vwap_rejection"]
    else []
  | _, _ => []

/-- Strong-trend block of `_detect_patterns` (ADX > 25 plus EMA ordering). -/
def adxPats (latest : Row) : List String :=
  match latest.adx_14 with
  | some a =>
    if 25 < a then
      match latest.ema_9, latest.ema_20 with
      | some e9, some e20 =>
        if e20 < e9 then ["strong_uptrend"]
        else if e9 < e20 then ["strong_downtrend"]
        else []
      | _, _ => []
    else []
  | none => []

/-- RSI-divergence block of `_detect_patterns`. -/
def divPats (latest : Row) : List String :=
  match latest.rsi_divergence with
  | DivTag.bullish_divergence => ["bullish_divergence"]
  | DivTag.bearish_divergence => ["bearish_divergence"]
  | DivTag.divNone => []

/-- `IndicatorEngine._detect_patterns`: the empty list below 20 rows,
otherwise the sequential appends over the latest and previous rows. -/
def detectPatterns (rows : List Row) : List String :=
  if rows.length < 20 then []
  else
    match rows.getLast?, rows.get? (rows.length - 2) with
    | some latest, some prev =>
      emaStackPats latest ++ crossPats prev latest ++ macdPats prev latest ++
      rsiPats latest ++ squeezePats latest ++ volumePats latest ++
      vwapPats prev latest ++ adxPats latest ++ divPats latest
    | _, _ => []

-- ─── Snapshot extraction (`get_snapshot`) ─────────────────────────────────

/-- `MACDValues` of `schemas.py`. -/
structure MACDValues where
  line : ℚ
  signal : ℚ
  histogram : ℚ
deriving DecidableEq

/-- `StochRSIValues` of `schemas.py`. -/
structure StochRSIValues where
  k : ℚ
  d : ℚ
deriving DecidableEq

/-- `BollingerValues` of `schemas.py`. -/
structure BollingerValues where
  upper : ℚ
  middle : ℚ
  lower : ℚ
  bandwidth : ℚ
  squeeze : Bool
deriving DecidableEq

/-- `IndicatorSnapshot` of `schemas.py`.  The identity metadata (ticker,
timestamp, timeframe) and the never-read `put_call_oi_ratio` field are
omitted; everything the scorer, pattern logic or options engine reads is
present. -/
structure IndicatorSnapshot where
  price : ℚ
  ema_9 : Option ℚ := none
  ema_20 : Option ℚ := none
  ema_50 : Option ℚ := none
  ema_200 : Option ℚ := none
  ema_stack : Option Direction := none
  rsi_14 : Option ℚ := none
  rsi_divergence : DivTag := DivTag.divNone
  macd : Option MACDValues := none
  stoch_rsi : Option StochRSIValues := none
  volume : Option ℚ := none
  rvol : Option ℚ := none
  obv_trend : Option Direction := none
  vwap : Option ℚ := none
  price_vs_vwap : Option VwapSide := none
  atr_14 : Option ℚ := none
  atr_percent : Option ℚ := none
  bollinger : Option BollingerValues := none
  adx_14 : Option ℚ := none
  adx_trend : Option String := none
  iv_rank : Option ℚ := none
  iv_percentile : Option ℚ := none
  patterns : List String := []
deriving DecidableEq

/-- `IndicatorEngine._classify_ema_stack`. -/
def classifyEmaStackO (e9 e20 e50 e200 : Option ℚ) : Option Direction :=
  match e9, e20, e50, e200 with
  | some a, some b, some c, some d =>
    some (if b < a ∧ c < b ∧ d < c then Direction.bullish
          else if a < b ∧ b < c ∧ c < d then Direction.bearish
          else Direction.neutral)
  | _, _, _, _ => none

/-- The ADX trend bucket assigned in `get_snapshot`. -/
def adxTrendOf (adx : Option ℚ) : Option String :=
  match adx with
  | some a =>
    some (if 40 ≤ a then "strong"
          else if 25 ≤ a then "moderate"
          else if 15 ≤ a then "weak"
          else "no_trend")
  | none => none

/-- OBV trend assigned in `get_snapshot` (OBV and its EMA are never `NaN`). -/
def obvTrendAt (bars : List Bar) : Option Direction :=
  some (if obvEmaAt bars < obvAt bars then Direction.bullish else Direction.bearish)

/-- `price_vs_vwap` assigned in `get_snapshot` (VWAP is never `NaN`). -/
def priceVsVwapAt (bars : List Bar) : Option VwapSide :=
  let v := vwapAt bars
  let c := (lastBar bars).close
  if 0 < v then
    some (if |c - v| / v * 100 < 1/10 then VwapSide.atVwap
          else if v < c then VwapSide.above
          else VwapSide.below)
  else none

/-- `IndicatorEngine.get_snapshot` on an already-sorted non-empty bar list. -/
def snapshotAt (bars : List Bar) : IndicatorSnapshot :=
  let cs := closes bars
  { price := roundTo 2 (lastBar bars).close
    ema_9 := some (roundTo 2 (emaAt 9 bars))
    ema_20 := some (roundTo 2 (emaAt 20 bars))
    ema_50 := some (roundTo 2 (emaAt 50 bars))
    ema_200 := some (roundTo 2 (emaAt 200 bars))
    ema_stack := classifyEmaStackO (some (emaAt 9 bars)) (some (emaAt 20 bars))
      (some (emaAt 50 bars)) (some (emaAt 200 bars))
    rsi_14 := safeRound 1 (rsiAt 14 cs)
    rsi_divergence := divergenceAt bars
    macd := some
      { line := orZero (safeRound 3 (some (macdLineAt bars)))
        signal := orZero (safeRound 3 (some (macdSignalAt bars)))
        histogram := orZero (safeRound 3 (some (macdHistogramAt bars))) }
    stoch_rsi :=
      match stochKAt cs with
      | some k => some
        { k := orZero (safeRound 1 (some k))
          d := orZero (safeRound 1 (stochDAt cs)) }
      | none => none
    volume := some (lastBar bars).volume
    rvol := safeRound 2 (some (rvolAt bars))
    obv_trend := obvTrendAt bars
    vwap := safeRound 2 (some (vwapAt bars))
    price_vs_vwap := priceVsVwapAt bars
    atr_14 := safeRound 2 (some (atrAt 14 bars))
    atr_percent := safeRound 2 (some (atrPercentAt bars))
    bollinger :=
      match bbMiddleAt bars with
      | some _ => some
        { upper := orZero (safeRound 2 (bbUpperAt bars))
          middle := orZero (safeRound 2 (bbMiddleAt bars))
          lower := orZero (safeRound 2 (bbLowerAt bars))
          bandwidth := orZero (safeRound 2 (some (bbBandwidthAt bars)))
          squeeze := bbSqueezeAt bars }
      | none => none
    adx_14 := safeRound 1 (adxAt bars)
    adx_trend := adxTrendOf (adxAt bars)
    iv_rank := none
    iv_percentile := none
    patterns := detectPatterns (rowsOf bars) }

/-- `IndicatorEngine(ticker_data).get_snapshot()`: sort by timestamp, then
extract the latest-row snapshot; `none` for an empty bar list (the source
would fault on `iloc[-1]`, and the spec requires at least one bar). -/
def getSnapshot (bars : List Bar) : Option IndicatorSnapshot :=
  match toDataframe bars with
  | [] => none
  | b :: rest => some (snapshotAt (b :: rest))

-- ─── Confidence scorer (`indicators/confidence.py`) ───────────────────────

/-- `ConfidenceBreakdown` of `schemas.py` (eight sub-scores). -/
structure ConfidenceBreakdown where
  trend_alignment : ℚ
  momentum_confirmation : ℚ
  volume_confirmation : ℚ
  volatility_context : ℚ
  regime_alignment : ℚ
  catalyst_alignment : ℚ
  historical_analog : ℚ
  personal_edge : ℚ
deriving DecidableEq

/-- `ConfidenceBreakdown.composite`: the fixed-weight sum (weights total 1.0)
rounded to one decimal. -/
def ConfidenceBreakdown.composite (b : ConfidenceBreakdown) : ℚ :=
  roundTo 1 (b.trend_alignment * (15/100) + b.momentum_confirmation * (12/100) +
    b.volume_confirmation * (12/100) + b.volatility_context * (8/100) +
    b.regime_alignment * (13/100) + b.catalyst_alignment * (13/100) +
    b.historical_analog * (12/100) + b.personal_edge * (15/100))

/-- `ConfidenceBreakdown.rating`: pure step function of the composite. -/
def ConfidenceBreakdown.rating (b : ConfidenceBreakdown) : String :=
  let s := b.composite
  if 80 ≤ s then "A — High Conviction"
  else if 65 ≤ s then "B — Favorable Setup"
  else if 50 ≤ s then "C — Mixed Signals"
  else if 35 ≤ s then "D — Proceed With Caution"
  else "F — Avoid"

/-- The slice of `MarketRegime` read by `_score_regime` (`market_direction`,
`spy_regime`, `vix`); the remaining session fields are never read by the
components modelled here. -/
structure MarketRegime where
  spy_regime : RegimeType
  market_direction : Direction
  vix : ℚ
deriving DecidableEq

/-- The slice of `CatalystContext` read by `_score_catalysts`: overall risk
level, the positioning-bias string, the expected impacts of this week's
scheduled events, and the number of active geopolitical events. -/
structure CatalystContext where
  overall_event_risk : EventRisk
  positioning_bias : String
  eventImpactsThisWeek : List EventRisk
  activeGeopoliticalCount : ℕ
deriving DecidableEq

/-- `ConfidenceScorer._score_trend`.  The Python guards
`if ind.ema_20 and price > ind.ema_20` use float truthiness: an absent *or
zero* EMA skips the adjustment.  The sequential `score +=` updates are
written as one sum of the same deltas. -/
def scoreTrend (ind : IndicatorSnapshot) (direction : Direction) : ℚ :=
  let stackAdj : ℚ :=
    match ind.ema_stack with
    | some st =>
      if st = direction then 25
      else if st ≠ Direction.neutral ∧ st ≠ direction then -25
      else 0
    | none => 0
  let emaAdj : ℚ :=
    match direction with
    | Direction.bullish =>
      (match ind.ema_20 with | some e => if e ≠ 0 ∧ e < ind.price then 10 else 0 | none => 0) +
      (match ind.ema_50 with | some e => if e ≠ 0 ∧ e < ind.price then 8 else 0 | none => 0) +
      (match ind.ema_200 with | some e => if e ≠ 0 ∧ e < ind.price then 7 else 0 | none => 0) +
      (match ind.ema_200 with | some e => if e ≠ 0 ∧ ind.price < e then -15 else 0 | none => 0)
    | Direction.bearish =>
      (match ind.ema_20 with | some e => if e ≠ 0 ∧ ind.price < e then 10 else 0 | none => 0) +
      (match ind.ema_50 with | some e => if e ≠ 0 ∧ ind.price < e then 8 else 0 | none => 0) +
      (match ind.ema_200 with | some e => if e ≠ 0 ∧ ind.price < e then 7 else 0 | none => 0) +
      (match ind.ema_200 with | some e => if e ≠ 0 ∧ e < ind.price then -15 else 0 | none => 0)
    | Direction.neutral => 0
  pyClamp (50 + stackAdj + emaAdj)

/-- `ConfidenceScorer._score_momentum`: confirmation counting over
RSI/MACD/StochRSI, direct RSI-extreme penalties, a ±15 divergence
adjustment, and the linear `(ratio - 0.5) * 40` mapping. -/
def scoreMomentum (ind : IndicatorSnapshot) (direction : Direction) : ℚ :=
  let rsiSignals : ℚ := match ind.rsi_14 with | some _ => 1 | none => 0
  let rsiConf : ℚ :=
    match ind.rsi_14 with
    | some r =>
      match direction with
      | Direction.bullish =>
        if 40 ≤ r ∧ r ≤ 70 then 1 else if 70 < r then 0 else if r < 30 then 1/2 else 0
      | Direction.bearish =>
        if 30 ≤ r ∧ r ≤ 60 then 1 else if r < 30 then 0 else if 70 < r then 1/2 else 0
      | Direction.neutral => 0
    | none => 0
  let rsiPenalty : ℚ :=
    match ind.rsi_14 with
    | some r =>
      match direction with
      | Direction.bullish => if 40 ≤ r ∧ r ≤ 70 then 0 else if 70 < r then -10 else 0
      | Direction.bearish => if 30 ≤ r ∧ r ≤ 60 then 0 else if r < 30 then -10 else 0
      | Direction.neutral => 0
    | none => 0
  let macdSignals : ℚ := match ind.macd with | some _ => 1 | none => 0
  let macdConf : ℚ :=
    match ind.macd with
    | some m =>
      match direction with
      | Direction.bullish =>
        (if 0 < m.histogram then 1 else 0) + (if m.signal < m.line then 1/2 else 0)
      | Direction.bearish =>
        (if m.histogram < 0 then 1 else 0) + (if m.line < m.signal then 1/2 else 0)
      | Direction.neutral => 0
    | none => 0
  let stochSignals : ℚ := match ind.stoch_rsi with | some _ => 1 | none => 0
  let stochConf : ℚ :=
    match ind.stoch_rsi with
    | some sr =>
      if direction = Direction.bullish ∧ sr.d < sr.k then 1
      else if direction = Direction.bearish ∧ sr.k < sr.d then 1
      else 0
    | none => 0
  let divAdj : ℚ :=
    match ind.rsi_divergence with
    | DivTag.bullish_divergence =>
      if direction = Direction.bullish then 15
      else if direction = Direction.bearish then -15 else 0
    | DivTag.bearish_divergence =>
      if direction = Direction.bearish then 15
      else if direction = Direction.bullish then -15 else 0
    | DivTag.divNone => 0
  let signals := rsiSignals + macdSignals + stochSignals
  let confirmations := rsiConf + macdConf + stochConf
  let ratioAdj : ℚ := if 0 < signals then (confirmations / signals - 1/2) * 40 else 0
  pyClamp (50 + rsiPenalty + divAdj + ratioAdj)

/-- `ConfidenceScorer._score_volume`. -/
def scoreVolume (ind : IndicatorSnapshot) (direction : Direction) : ℚ :=
  let rvolAdj : ℚ :=
    match ind.rvol with
    | some r =>
      if 2 ≤ r then 25 else if 3/2 ≤ r then 15 else if 1 ≤ r then 5
      else if r < 7/10 then -15 else 0
    | none => 0
  let obvAdj : ℚ :=
    match ind.obv_trend with
    | some t =>
      if t = direction then 15
      else if t ≠ Direction.neutral ∧ t ≠ direction then -15
      else 0
    | none => 0
  let vwapAdj : ℚ :=
    match ind.price_vs_vwap with
    | some side =>
      if direction = Direction.bullish ∧ side = VwapSide.above then 5
      else if direction = Direction.bearish ∧ side = VwapSide.below then 5
      else if direction = Direction.bullish ∧ side = VwapSide.below then -5
      else if direction = Direction.bearish ∧ side = VwapSide.above then -5
      else 0
    | none => 0
  pyClamp (50 + rvolAdj + obvAdj + vwapAdj)

/-- `ConfidenceScorer._score_volatility`. -/
def scoreVolatility (ind : IndicatorSnapshot) (trade_type : TradeType) : ℚ :=
  let atrAdj : ℚ :=
    match ind.atr_percent with
    | some a =>
      match trade_type with
      | TradeType.day_trade => if 3 ≤ a then 20 else if 2 ≤ a then 10 else if a < 1 then -20 else 0
      | TradeType.swing => if 3/2 ≤ a ∧ a ≤ 4 then 15 else if 6 < a then -15 else 0
    | none => 0
  let squeezeAdj : ℚ :=
    match ind.bollinger with
    | some bb => if bb.squeeze then 15 else 0
    | none => 0
  pyClamp (50 + atrAdj + squeezeAdj)

/-- `ConfidenceScorer._score_regime`. -/
def scoreRegime (regime : MarketRegime) (direction : Direction) : ℚ :=
  let dirAdj : ℚ :=
    if regime.market_direction = direction then 20
    else if regime.market_direction ≠ Direction.neutral ∧ regime.market_direction ≠ direction then -20
    else 0
  let regAdj : ℚ :=
    match direction with
    | Direction.bullish =>
      if regime.spy_regime = RegimeType.strong_uptrend ∨ regime.spy_regime = RegimeType.uptrend then 15
      else if regime.spy_regime = RegimeType.strong_downtrend ∨ regime.spy_regime = RegimeType.downtrend then -15
      else 0
    | Direction.bearish =>
      if regime.spy_regime = RegimeType.strong_downtrend ∨ regime.spy_regime = RegimeType.downtrend then 15
      else if regime.spy_regime = RegimeType.strong_uptrend ∨ regime.spy_regime = RegimeType.uptrend then -15
      else 0
    | Direction.neutral => 0
  let vixAdj : ℚ :=
    if regime.vix < 15 then (if direction = Direction.bullish then 5 else -5)
    else if 30 < regime.vix then -10
    else if 25 < regime.vix then (if direction = Direction.bearish then 5 else -5)
    else 0
  pyClamp (50 + dirAdj + regAdj + vixAdj)

/-- The `risk_penalty` table of `_score_catalysts`. -/
def riskPenalty : EventRisk → ℚ
  | EventRisk.low => 0
  | EventRisk.moderate => -5
  | EventRisk.high => -15
  | EventRisk.extreme => -25

/-- `ConfidenceScorer._score_catalysts`. -/
def scoreCatalysts (catalysts : CatalystContext) (direction : Direction) : ℚ :=
  let biasAdj : ℚ :=
    if catalysts.positioning_bias = "risk-on" ∧ direction = Direction.bullish then 15
    else if catalysts.positioning_bias = "risk-off" ∧ direction = Direction.bearish then 15
    else if catalysts.positioning_bias = "risk-on" ∧ direction = Direction.bearish then -10
    else if catalysts.positioning_bias = "risk-off" ∧ direction = Direction.bullish then -10
    else if catalysts.positioning_bias = "wait-for-catalyst" then -10
    else 0
  let highImpact : ℚ :=
    (catalysts.eventImpactsThisWeek.countP
      (fun r => decide (r = EventRisk.high ∨ r = EventRisk.extreme)) : ℕ)
  let geoAdj : ℚ :=
    if 0 < catalysts.activeGeopoliticalCount then
      -(min ((catalysts.activeGeopoliticalCount : ℚ) * 8) 20)
    else 0
  pyClamp (50 + riskPenalty catalysts.overall_event_risk + biasAdj - highImpact * 5 + geoAdj)

/-- `ConfidenceScorer.score`. -/
def score (ind : IndicatorSnapshot) (direction : Direction) (trade_type : TradeType)
    (regime : Option MarketRegime) (catalysts : Option CatalystContext)
    (personal_win_rate : Option ℚ) : ConfidenceBreakdown :=
  { trend_alignment := scoreTrend ind direction
    momentum_confirmation := scoreMomentum ind direction
    volume_confirmation := scoreVolume ind direction
    volatility_context := scoreVolatility ind trade_type
    regime_alignment := match regime with | some r => scoreRegime r direction | none => 50
    catalyst_alignment := match catalysts with | some c => scoreCatalysts c direction | none => 50
    historical_analog := 50
    personal_edge := personal_win_rate.getD 50 }

-- ─── Options strategy engine (`options/strategy.py`) ──────────────────────

/-- `OptionsRecommendation` (strategy tag, rationale, structure text; the
optional numeric fields of the schema are never set by the engine and are
omitted).  `structure` is a Lean keyword, renamed `structureText`. -/
structure OptionsRecommendation where
  strategy : OptionsStrategy
  rationale : String
  structureText : String
deriving DecidableEq

/-- Python `f"{x:.0f}"`: banker's rounding to an integer (the `-0` float
artefact prints as `0` here; no theorem inspects that case). -/
def fmt0 (x : ℚ) : String := toString (roundHalfEven x)

/-- `OptionsStrategyEngine._day_trade_strategy` (its `catalyst_risk` argument
is never read). -/
def dayTradeStrategy (direction : Direction) (iv_rank scorev : ℚ) : OptionsRecommendation :=
  if 70 ≤ scorev ∧ direction ≠ Direction.neutral then
    { strategy := if direction = Direction.bullish then OptionsStrategy.long_call else OptionsStrategy.long_put
      rationale := "High confidence (" ++ fmt0 scorev ++ ") day trade. Direct long options " ++
        "for leverage. IV rank " ++ fmt0 iv_rank ++ " is acceptable for intraday hold."
      structureText := "Buy ATM or slightly OTM " ++
        (if direction = Direction.bullish then "call" else "put") ++
        ", 0-2 DTE for gamma. Target 50% profit, stop at 30%." }
  else if 50 ≤ scorev ∧ direction ≠ Direction.neutral then
    { strategy := if direction = Direction.bullish then OptionsStrategy.bull_call_spread else OptionsStrategy.bear_put_spread
      rationale := "Moderate confidence (" ++ fmt0 scorev ++ ") day trade. Debit spread " ++
        "caps risk while maintaining directional exposure. " ++
        "Better risk/reward than naked long in uncertain conditions."
      structureText := (if direction = Direction.bullish then "Bull call" else "Bear put") ++
        " spread, tight strikes ($1-2 wide), 0-5 DTE." }
  else
    { strategy := OptionsStrategy.stock_only
      rationale := "Low confidence (" ++ fmt0 scorev ++ "). Options leverage is inappropriate. " ++
        "Trade stock for reduced risk, or wait for better setup."
      structureText := "Stock shares only. Smaller position size." }

/-- Mid-IV tail of `_swing_strategy` (the code past the low-IV block, reached
by fall-through). -/
def swingMidIV (direction : Direction) (iv_rank scorev : ℚ) : OptionsRecommendation :=
  if 70 ≤ scorev ∧ direction ≠ Direction.neutral then
    { strategy := if direction = Direction.bullish then OptionsStrategy.long_call else OptionsStrategy.long_put
      rationale := "Mid IV (" ++ fmt0 iv_rank ++ ") + high confidence (" ++ fmt0 scorev ++ "). " ++
        "Strong setup justifies long premium exposure."
      structureText := "Buy " ++ (if direction = Direction.bullish then "call" else "put") ++
        ", ATM to slightly OTM. 30-45 DTE." }
  else if direction ≠ Direction.neutral then
    { strategy := if direction = Direction.bullish then OptionsStrategy.bull_call_spread else OptionsStrategy.bear_put_spread
      rationale := "Mid IV (" ++ fmt0 iv_rank ++ ") + moderate confidence (" ++ fmt0 scorev ++ "). " ++
        "Debit spread balances directional exposure with defined risk."
      structureText := (if direction = Direction.bullish then "Bull call" else "Bear put") ++
        " spread, 21-45 DTE." }
  else
    { strategy := OptionsStrategy.stock_only
      rationale := "No clear directional edge (score: " ++ fmt0 scorev ++ "). " ++
        "Avoid options. Trade stock or wait."
      structureText := "Stock only or no trade." }

/-- Low-IV block of `_swing_strategy` (falls through to the mid-IV tail when
it does not return, including for a neutral direction). -/
def swingLowIV (direction : Direction) (iv_rank scorev : ℚ) : OptionsRecommendation :=
  if iv_rank < 30 then
    if 65 ≤ scorev ∧ direction ≠ Direction.neutral then
      { strategy := if direction = Direction.bullish then OptionsStrategy.long_call else OptionsStrategy.long_put
        rationale := "IV rank " ++ fmt0 iv_rank ++ " is low — premium is cheap. " ++
          "High confidence (" ++ fmt0 scorev ++ ") supports directional long options. " ++
          "Potential for IV expansion adds to profit."
        structureText := "Buy " ++ (if direction = Direction.bullish then "call" else "put") ++
          ", ATM or 1 strike OTM. 30-60 DTE for time. " ++
          "Look for potential IV expansion catalyst." }
    else if direction ≠ Direction.neutral then
      { strategy := if direction = Direction.bullish then OptionsStrategy.bull_call_spread else OptionsStrategy.bear_put_spread
        rationale := "Low IV (" ++ fmt0 iv_rank ++ ") + moderate confidence (" ++ fmt0 scorev ++ "). " ++
          "Debit spread is cost-effective with defined max loss."
        structureText := (if direction = Direction.bullish then "Bull call" else "Bear put") ++
          " spread, 21-45 DTE. Strikes around key technical levels." }
    else swingMidIV direction iv_rank scorev
  else swingMidIV direction iv_rank scorev

/-- `OptionsStrategyEngine._swing_strategy` (its `catalyst_risk` argument is
never read).  If all three high-IV branches fail (impossible), the source
falls through to the low-IV check, which the last `else` mirrors. -/
def swingStrategy (direction : Direction) (iv_rank scorev : ℚ) : OptionsRecommendation :=
  if 60 ≤ iv_rank then
    if direction = Direction.bullish ∧ 55 ≤ scorev then
      { strategy := OptionsStrategy.bull_put_spread
        rationale := "IV rank " ++ fmt0 iv_rank ++ " is elevated — favor selling premium. " ++
          "Bull put spread collects credit with defined downside risk. " ++
          "Theta decay works in your favor."
        structureText := "Sell put spread below support. 30-45 DTE. " ++
          "Short strike at or below key support level." }
    else if direction = Direction.bearish ∧ 55 ≤ scorev then
      { strategy := OptionsStrategy.bear_call_spread
        rationale := "IV rank " ++ fmt0 iv_rank ++ " is elevated — favor selling premium. " ++
          "Bear call spread profits from theta + directional move down."
        structureText := "Sell call spread above resistance. 30-45 DTE. " ++
          "Short strike at or above key resistance level." }
    else if direction = Direction.neutral ∨ scorev < 55 then
      { strategy := OptionsStrategy.iron_condor
        rationale := "High IV (" ++ fmt0 iv_rank ++ ") + neutral/low-conviction direction. " ++
          "Iron condor profits from range-bound action and IV crush."
        structureText := "Iron condor with wings outside expected move. 30-45 DTE. " ++
          "Manage at 50% max profit or 2x credit received loss." }
    else swingLowIV direction iv_rank scorev
  else swingLowIV direction iv_rank scorev

/-- `OptionsStrategyEngine._earnings_play`. -/
def earningsPlay (direction : Direction) (iv_rank scorev : ℚ) : OptionsRecommendation :=
  if direction = Direction.neutral ∨ scorev < 60 then
    { strategy := OptionsStrategy.iron_condor
      rationale := "Earnings within 3 days. IV is elevated (rank: " ++ fmt0 iv_rank ++ "). " ++
        "Iron condor profits from post-earnings IV crush " ++
        "if stock stays within expected move."
      structureText := "Iron condor with wings at expected move boundaries. " ++
        "Expiry immediately after earnings." }
  else if 70 ≤ scorev then
    { strategy := if direction = Direction.bullish then OptionsStrategy.long_call else OptionsStrategy.long_put
      rationale := "High conviction (" ++ fmt0 scorev ++ ") directional earnings play. " ++
        "WARNING: IV crush will erode premium post-earnings even if " ++
        "direction is correct. Stock must move beyond expected move to profit."
      structureText := "Buy " ++ (if direction = Direction.bullish then "call" else "put") ++
        ", slightly OTM past expected move. Use defined risk (debit spread) " ++
        "to reduce IV crush impact." }
  else
    { strategy := OptionsStrategy.strangle
      rationale := "Earnings play with directional lean but not enough conviction " ++
        "for pure directional. Strangle profits from large move in either direction."
      structureText := "Buy strangle: OTM call + OTM put, expiry right after earnings. " ++
        "Requires move beyond both breakevens." }

/-- Python `indicators.iv_rank or 50`: `None` and the falsy float `0.0` both
default to 50. -/
def orFifty (v : Option ℚ) : ℚ :=
  match v with
  | some x => if x = 0 then 50 else x
  | none => 50

/-- `OptionsStrategyEngine.recommend`: the earnings-proximity override runs
before any horizon branching; `days_to_earnings` is an optional integer;
`catalyst_risk` is accepted but never read by any branch. -/
def recommend (trade_type : TradeType) (direction : Direction)
    (indicators : IndicatorSnapshot) (confidence : ConfidenceBreakdown)
    (_catalyst_risk : EventRisk) (days_to_earnings : Option ℤ) : OptionsRecommendation :=
  let iv_rank := orFifty indicators.iv_rank
  let scorev := confidence.composite
  match days_to_earnings with
  | some d =>
    if d ≤ 3 then earningsPlay direction iv_rank scorev
    else if trade_type = TradeType.day_trade then dayTradeStrategy direction iv_rank scorev
    else swingStrategy direction iv_rank scorev
  | none =>
    if trade_type = TradeType.day_trade then dayTradeStrategy direction iv_rank scorev
    else swingStrategy direction iv_rank scorev

-- ─── Regime classifier (`regime/engine.py`) ───────────────────────────────

/-- A row of the frame produced by `RegimeEngine._fetch`: close plus the
computed EMA and ATR columns (all `NaN`-free). -/
structure RegimeRow where
  close : ℚ
  ema_9 : ℚ
  ema_20 : ℚ
  ema_50 : ℚ
  ema_200 : ℚ
  atr_14 : ℚ
deriving DecidableEq

/-- `RegimeEngine._fetch` minus the network call: EMAs and ATR over the bars
(the also-computed `rsi_14` column is never read by `_classify_regime`). -/
def regimeFetch (bars : List Bar) : List RegimeRow :=
  (inits1 bars).map (fun p =>
    { close := (lastBar p).close
      ema_9 := emaAt 9 p
      ema_20 := emaAt 20 p
      ema_50 := emaAt 50 p
      ema_200 := emaAt 200 p
      atr_14 := atrAt 14 p })

/-- The `df.iloc[-6]["ema_20"]` accessor shared by the implementation and the
specification reading (0 if out of range, which the `len >= 25` guard rules
out). -/
def ema20Ago (df : List RegimeRow) : ℚ :=
  match df.get? (df.length - 6) with
  | some r => r.ema_20
  | none => 0

/-- `RegimeEngine._classify_regime` (`df.empty or len(df) < 50` collapses to
the length test). -/
def classifyRegime (df : List RegimeRow) : RegimeType :=
  if df.length < 50 then RegimeType.range_bound
  else
    match df.getLast? with
    | none => RegimeType.range_bound
    | some latest =>
      let price := latest.close
      let aboveCount : ℕ :=
        (if latest.ema_9 < price then 1 else 0) + (if latest.ema_20 < price then 1 else 0) +
        (if latest.ema_50 < price then 1 else 0) + (if latest.ema_200 < price then 1 else 0)
      let slope : ℚ :=
        if 25 ≤ df.length then
          if 0 < ema20Ago df then (latest.ema_20 - ema20Ago df) / ema20Ago df * 100 else 0
        else 0
      let atrPct : ℚ := if 0 < price then latest.atr_14 / price * 100 else 0
      if 4 < atrPct then RegimeType.high_volatility
      else if aboveCount = 4 ∧ 1/2 < slope then RegimeType.strong_uptrend
      else if 3 ≤ aboveCount ∧ 0 < slope then RegimeType.uptrend
      else if aboveCount ≤ 1 ∧ slope < -(1/2) then RegimeType.strong_downtrend
      else if aboveCount ≤ 1 ∧ slope < 0 then RegimeType.downtrend
      else RegimeType.range_bound

/-- The regime decision table exactly as claim C4 / spec §4.2 state it: fewer
than 50 bars is range-bound; else ATR as a percent of the latest close over 4
is high-volatility; else the above-count/slope table, the slope being the
percent change of the 20-EMA over the most recent 6 bars. -/
def classifyRegimeSpec (df : List RegimeRow) : RegimeType :=
  if df.length < 50 then RegimeType.range_bound
  else
    match df.getLast? with
    | none => RegimeType.range_bound
    | some latest =>
      let price := latest.close
      let aboveCount : ℕ :=
        (if latest.ema_9 < price then 1 else 0) + (if latest.ema_20 < price then 1 else 0) +
        (if latest.ema_50 < price then 1 else 0) + (if latest.ema_200 < price then 1 else 0)
      let slope : ℚ := (latest.ema_20 - ema20Ago df) / ema20Ago df * 100
      let atrPct : ℚ := latest.atr_14 / price * 100
      if 4 < atrPct then RegimeType.high_volatility
      else if aboveCount = 4 ∧ 1/2 < slope then RegimeType.strong_uptrend
      else if 3 ≤ aboveCount ∧ 0 < slope then RegimeType.uptrend
      else if aboveCount ≤ 1 ∧ slope < -(1/2) then RegimeType.strong_downtrend
      else if aboveCount ≤ 1 ∧ slope < 0 then RegimeType.downtrend
      else RegimeType.range_bound

-- ─── Cross-asset signal detector (`data/cross_asset.py`) ──────────────────

/-- Per-instrument metrics of `_compute_metrics` read by
`_compute_cross_signals` (the remaining dict entries — price, name, 52-week
stats, EMA flags — are never read by the signal rules). -/
structure InstrumentMetrics where
  change_1d : ℚ
  change_1w : ℚ
  change_1m : ℚ
  rsi_14 : Option ℚ
  trend : String
deriving DecidableEq

/-- The instruments mapping passed to `_compute_cross_signals` (fixed key
set; `IEF` is fetched but never read by any rule).  An absent entry skips
every rule touching it. -/
structure Instruments where
  tlt : Option InstrumentMetrics := none
  ief : Option InstrumentMetrics := none
  shy : Option InstrumentMetrics := none
  hyg : Option InstrumentMetrics := none
  lqd : Option InstrumentMetrics := none
  gld : Option InstrumentMetrics := none
  uso : Option InstrumentMetrics := none
  uup : Option InstrumentMetrics := none
  iwm : Option InstrumentMetrics := none
  rsp : Option InstrumentMetrics := none
deriving DecidableEq

/-- A fired cross-asset signal: name and severity (the templated `detail`
string, pure formatting of the same numbers, is not modelled). -/
structure CrossSignal where
  signal : String
  severity : String
deriving DecidableEq

/-- Rule 1 of `_compute_cross_signals`: yield curve (TLT vs SHY, ±2% 1M). -/
def yieldCurveSignals (tlt shy : Option InstrumentMetrics) : List CrossSignal :=
  match tlt, shy with
  | some t, some s =>
    let spreadMove := t.change_1m - s.change_1m
    if 2 < spreadMove then [{ signal := "YIELD CURVE STEEPENING", severity := "high" }]
    else if spreadMove < -2 then
      [{ signal := "YIELD CURVE FLATTENING/INVERSION PRESSURE", severity := "high" }]
    else []
  | _, _ => []

/-- Rule 2: credit stress (LQD vs HYG, 1W). -/
def creditSignals (hyg lqd : Option InstrumentMetrics) : List CrossSignal :=
  match hyg, lqd with
  | some h, some l =>
    let creditSpreadMove := l.change_1w - h.change_1w
    if 1 < creditSpreadMove then
      [{ signal := "CREDIT STRESS: FLIGHT TO QUALITY", severity := "high" }]
    else if h.change_1w < -1 ∧ l.change_1w < -(1/2) then
      [{ signal := "BROAD CREDIT SELLOFF", severity := "high" }]
    else []
  | _, _ => []

/-- Rule 3: risk appetite (HYG vs TLT, ±2% 1W). -/
def riskAppetiteSignals (hyg tlt : Option InstrumentMetrics) : List CrossSignal :=
  match hyg, tlt with
  | some h, some t =>
    let ra := h.change_1w - t.change_1w
    if ra < -2 then [{ signal := "RISK-OFF: TREASURIES OVER CREDIT", severity := "high" }]
    else if 2 < ra then [{ signal := "RISK-ON: CREDIT OVER TREASURIES", severity := "medium" }]
    else []
  | _, _ => []

/-- Rule 4: gold (±2% 1W; the dollar/bond reason attribution only feeds the
detail text). -/
def goldSignals (gld : Option InstrumentMetrics) : List CrossSignal :=
  match gld with
  | some g =>
    if 2 < g.change_1w then
      [{ signal := "GOLD BREAKOUT — FEAR/INFLATION BID", severity := "medium" }]
    else if g.change_1w < -2 then
      [{ signal := "GOLD SELLOFF — RISK-ON OR DOLLAR STRENGTH", severity := "medium" }]
    else []
  | none => []

/-- Rule 5: dollar (±1% 1W). -/
def dollarSignals (uup : Option InstrumentMetrics) : List CrossSignal :=
  match uup with
  | some u =>
    if 1 < u.change_1w then [{ signal := "DOLLAR STRENGTHENING", severity := "medium" }]
    else if u.change_1w < -1 then [{ signal := "DOLLAR WEAKENING", severity := "medium" }]
    else []
  | none => []

/-- Rule 6: breadth (IWM and RSP combined thresholds). -/
def breadthSignals (iwm rsp : Option InstrumentMetrics) : List CrossSignal :=
  match iwm, rsp with
  | some i, some r =>
    if i.change_1w < -2 ∧ r.change_1w < i.change_1w then
      [{ signal := "BREADTH DETERIORATION — SMALL CAPS LEADING DOWN", severity := "high" }]
    else if 3/2 < i.change_1w ∧ 1/2 < r.change_1w then
      [{ signal := "BROAD PARTICIPATION — HEALTHY BREADTH", severity := "medium" }]
    else []
  | _, _ => []

/-- Rule 7: oil (±3% 1W). -/
def oilSignals (uso : Option InstrumentMetrics) : List CrossSignal :=
  match uso with
  | some u =>
    if 3 < u.change_1w then
      [{ signal := "OIL SPIKE — INFLATION/GEOPOLITICAL RISK", severity := "medium" }]
    else if u.change_1w < -3 then
      [{ signal := "OIL DECLINE — DEMAND DESTRUCTION FEAR", severity := "medium" }]
    else []
  | none => []

/-- `_compute_cross_signals`: the seven independent rule families in source
order, each contributing zero or one signal. -/
def computeCrossSignals (inst : Instruments) : List CrossSignal :=
  yieldCurveSignals inst.tlt inst.shy ++ creditSignals inst.hyg inst.lqd ++
  riskAppetiteSignals inst.hyg inst.tlt ++ goldSignals inst.gld ++
  dollarSignals inst.uup ++ breadthSignals inst.iwm inst.rsp ++ oilSignals inst.uso

-- ─── Supporting lemmas ────────────────────────────────────────────────────

/-- Half-even rounding lands on the floor or one above it. -/
theorem roundHalfEven_cases (y : ℚ) :
    roundHalfEven y = ⌊y⌋ ∨ roundHalfEven y = ⌊y⌋ + 1 := by
  unfold roundHalfEven
  split
  · exact Or.inl rfl
  · split
    · exact Or.inr rfl
    · split
      · exact Or.inl rfl
      · exact Or.inr rfl

/-- Half-even rounding of a non-negative rational is non-negative. -/
theorem roundHalfEven_nonneg {y : ℚ} (h : 0 ≤ y) : 0 ≤ roundHalfEven y := by
  have hf : 0 ≤ ⌊y⌋ := Int.floor_nonneg.mpr h
  rcases roundHalfEven_cases y with he | he <;> rw [he] <;> omega

/-- Half-even rounding never exceeds an integer upper bound of its input. -/
theorem roundHalfEven_le_int {y : ℚ} {hi : ℤ} (h : y ≤ (hi : ℚ)) :
    roundHalfEven y ≤ hi := by
  rcases eq_or_lt_of_le h with he | hlt
  · rw [he]
    simp [roundHalfEven, Int.floor_intCast]
  · have h1 : ⌊y⌋ < hi := Int.floor_lt.mpr hlt
    rcases roundHalfEven_cases y with he | he <;> rw [he] <;> omega

/-- `roundTo` preserves non-negativity. -/
theorem roundTo_nonneg {d : ℕ} {x : ℚ} (h : 0 ≤ x) : 0 ≤ roundTo d x := by
  unfold roundTo
  have hp : (0:ℚ) < (10:ℚ)^d := by positivity
  have h1 : (0:ℚ) ≤ x * 10^d := by positivity
  have h2 := roundHalfEven_nonneg h1
  have h3 : (0:ℚ) ≤ (roundHalfEven (x * 10^d) : ℚ) := by exact_mod_cast h2
  positivity

/-- `roundTo` preserves the bound 100. -/
theorem roundTo_le_hundred {d : ℕ} {x : ℚ} (h : x ≤ 100) : roundTo d x ≤ 100 := by
  unfold roundTo
  have hp : (0:ℚ) < (10:ℚ)^d := by positivity
  have h1 : x * 10^d ≤ ((100 * 10^d : ℤ) : ℚ) := by
    push_cast
    nlinarith
  have h2 := roundHalfEven_le_int h1
  rw [div_le_iff₀ hp]
  calc ((roundHalfEven (x * 10^d) : ℤ) : ℚ) ≤ ((100 * 10^d : ℤ) : ℚ) := by exact_mod_cast h2
    _ = 100 * 10^d := by push_cast; ring

/-- A score is in range when it lies in `[0, 100]`. -/
def inRange (x : ℚ) : Prop := 0 ≤ x ∧ x ≤ 100

instance (x : ℚ) : Decidable (inRange x) := inferInstanceAs (Decidable (0 ≤ x ∧ x ≤ 100))

/-- The Python clamp always lands in `[0, 100]`. -/
theorem pyClamp_inRange (x : ℚ) : inRange (pyClamp x) := by
  unfold pyClamp inRange
  constructor
  · exact le_max_left 0 _
  · exact max_le (by norm_num) (min_le_left 100 x)

/-- `inits1` preserves length. -/
theorem inits1_length : ∀ (xs : List α), (inits1 xs).length = xs.length
  | [] => rfl
  | _ :: t => by simp [inits1, inits1_length t]

/-- Dropping the head of a non-empty tail keeps the last element. -/
theorem getLast?_cons_ne {a : α} {L : List α} (h : L ≠ []) :
    (a :: L).getLast? = L.getLast? := by
  cases L with
  | nil => exact absurd rfl h
  | cons b t => exact List.getLast?_cons_cons

/-- The last non-empty prefix of a non-empty list is the list itself. -/
theorem inits1_getLast : ∀ {xs : List α}, xs ≠ [] → (inits1 xs).getLast? = some xs
  | [], h => absurd rfl h
  | [_], _ => rfl
  | x :: y :: u, _ => by
    show ([x] :: (inits1 (y :: u)).map (fun p => x :: p)).getLast? = some (x :: y :: u)
    have hne : (inits1 (y :: u)).map (fun p => x :: p) ≠ [] := by
      simp [inits1]
    rw [getLast?_cons_ne hne, List.getLast?_map,
      inits1_getLast (by simp : (y :: u) ≠ [])]
    rfl

/-- A column built over non-empty prefixes ends with the whole-list value. -/
theorem map_inits1_getLast (f : List α → β) {xs : List α} (h : xs ≠ []) :
    ((inits1 xs).map f).getLast? = some (f xs) := by
  rw [List.getLast?_map, inits1_getLast h]
  rfl

/-- Every member of `inits1 xs` is a non-empty `take` of `xs`. -/
theorem inits1_mem_take : ∀ {xs p : List α}, p ∈ inits1 xs → ∃ n, p = xs.take (n + 1)
  | [], p, h => absurd h (by simp [inits1])
  | x :: t, p, h => by
    rcases List.mem_cons.mp h with rfl | h2
    · exact ⟨0, rfl⟩
    · obtain ⟨q, hq, rfl⟩ := List.mem_map.mp h2
      obtain ⟨n, rfl⟩ := inits1_mem_take hq
      exact ⟨n + 1, rfl⟩

/-- Membership in `inits1`: every prefix is non-empty and a sub-collection. -/
theorem inits1_mem {xs p : List α} (h : p ∈ inits1 xs) :
    p ≠ [] ∧ ∀ x ∈ p, x ∈ xs := by
  obtain ⟨n, rfl⟩ := inits1_mem_take h
  have hxne : xs ≠ [] := by
    rintro rfl
    simp [inits1] at h
  constructor
  · cases xs with
    | nil => exact absurd rfl hxne
    | cons a t => simp [List.take_succ_cons]
  · exact fun x hx => List.mem_of_mem_take hx

/-- A chronologically ordered bar list is `barLe`-sorted, so the engine's
sort is the identity on it. -/
theorem toDataframe_eq_of_chrono {bars : List Bar} (h : Chrono bars) :
    toDataframe bars = bars :=
  List.Sorted.insertionSort_eq (h.imp (fun hlt => le_of_lt hlt))

/-- Sorting preserves length. -/
theorem toDataframe_length (bars : List Bar) :
    (toDataframe bars).length = bars.length :=
  List.length_insertionSort barLe bars

/-- On a non-empty bar list the engine returns the snapshot of the sorted
list. -/
theorem getSnapshot_def {bars : List Bar} (hne : bars ≠ []) :
    getSnapshot bars = some (snapshotAt (toDataframe bars)) := by
  unfold getSnapshot
  cases h : toDataframe bars with
  | nil =>
    exfalso
    apply hne
    have hlen := toDataframe_length bars
    rw [h] at hlen
    exact List.length_eq_zero.mp hlen.symm
  | cons b rest => rfl

/-- On chronologically ordered non-empty input the snapshot is taken over
the input order. -/
theorem getSnapshot_eq {bars : List Bar} (hne : bars ≠ []) (hc : Chrono bars) :
    getSnapshot bars = some (snapshotAt bars) := by
  rw [getSnapshot_def hne, toDataframe_eq_of_chrono hc]

/-- The row frame has one row per bar. -/
theorem rowsOf_length (bars : List Bar) : (rowsOf bars).length = bars.length := by
  simp [rowsOf, inits1_length]

/-- The schema constraint on the caller-supplied personal win rate. -/
def winRateValid : Option ℚ → Prop
  | some w => 0 ≤ w ∧ w ≤ 100
  | none => True

instance : DecidablePred winRateValid := fun o => by
  cases o with
  | none => exact isTrue trivial
  | some w => exact inferInstanceAs (Decidable (0 ≤ w ∧ w ≤ 100))

/-- Every trend sub-score is clamped into `[0, 100]`. -/
theorem scoreTrend_inRange (ind : IndicatorSnapshot) (d : Direction) :
    inRange (scoreTrend ind d) :=
  pyClamp_inRange _

/-- Every momentum sub-score is clamped into `[0, 100]`. -/
theorem scoreMomentum_inRange (ind : IndicatorSnapshot) (d : Direction) :
    inRange (scoreMomentum ind d) :=
  pyClamp_inRange _

/-- Every volume sub-score is clamped into `[0, 100]`. -/
theorem scoreVolume_inRange (ind : IndicatorSnapshot) (d : Direction) :
    inRange (scoreVolume ind d) :=
  pyClamp_inRange _

/-- Every volatility sub-score is clamped into `[0, 100]`. -/
theorem scoreVolatility_inRange (ind : IndicatorSnapshot) (t : TradeType) :
    inRange (scoreVolatility ind t) :=
  pyClamp_inRange _

/-- Every regime sub-score is clamped into `[0, 100]`. -/
theorem scoreRegime_inRange (r : MarketRegime) (d : Direction) :
    inRange (scoreRegime r d) :=
  pyClamp_inRange _

/-- Every catalyst sub-score is clamped into `[0, 100]`. -/
theorem scoreCatalysts_inRange (c : CatalystContext) (d : Direction) :
    inRange (scoreCatalysts c d) :=
  pyClamp_inRange _

/-- A weighted sum of in-range sub-scores with weights totalling 1, rounded
to one decimal, stays in `[0, 100]`. -/
theorem composite_inRange {b : ConfidenceBreakdown}
    (h1 : inRange b.trend_alignment) (h2 : inRange b.momentum_confirmation)
    (h3 : inRange b.volume_confirmation) (h4 : inRange b.volatility_context)
    (h5 : inRange b.regime_alignment) (h6 : inRange b.catalyst_alignment)
    (h7 : inRange b.historical_analog) (h8 : inRange b.personal_edge) :
    inRange b.composite := by
  obtain ⟨h1a, h1b⟩ := h1
  obtain ⟨h2a, h2b⟩ := h2
  obtain ⟨h3a, h3b⟩ := h3
  obtain ⟨h4a, h4b⟩ := h4
  obtain ⟨h5a, h5b⟩ := h5
  obtain ⟨h6a, h6b⟩ := h6
  obtain ⟨h7a, h7b⟩ := h7
  obtain ⟨h8a, h8b⟩ := h8
  unfold ConfidenceBreakdown.composite
  exact ⟨roundTo_nonneg (by linarith), roundTo_le_hundred (by linarith)⟩

-- ─── C2 ───────────────────────────────────────────────────────────────────

/-- C2: for every `IndicatorSnapshot`, direction, trade type, optional
`MarketRegime`, optional `CatalystContext`, and optional personal win rate in
`[0, 100]`, each of the eight sub-scores of the `ConfidenceBreakdown`
returned by `ConfidenceScorer.score` and the composite (the weighted sum
with weights summing to 1.0, rounded to one decimal) lie in `[0, 100]`. -/
theorem C2_confidence_bounded (ind : IndicatorSnapshot) (direction : Direction)
    (trade_type : TradeType) (regime : Option MarketRegime)
    (catalysts : Option CatalystContext) (pwr : Option ℚ) (hw : winRateValid pwr) :
    inRange (score ind direction trade_type regime catalysts pwr).trend_alignment ∧
    inRange (score ind direction trade_type regime catalysts pwr).momentum_confirmation ∧
    inRange (score ind direction trade_type regime catalysts pwr).volume_confirmation ∧
    inRange (score ind direction trade_type regime catalysts pwr).volatility_context ∧
    inRange (score ind direction trade_type regime catalysts pwr).regime_alignment ∧
    inRange (score ind direction trade_type regime catalysts pwr).catalyst_alignment ∧
    inRange (score ind direction trade_type regime catalysts pwr).historical_analog ∧
    inRange (score ind direction trade_type regime catalysts pwr).personal_edge ∧
    inRange (score ind direction trade_type regime catalysts pwr).composite := by
  have hr : inRange (score ind direction trade_type regime catalysts pwr).regime_alignment := by
    cases regime with
    | none => exact show inRange (50:ℚ) from ⟨by norm_num, by norm_num⟩
    | some r => exact scoreRegime_inRange r direction
  have hc : inRange (score ind direction trade_type regime catalysts pwr).catalyst_alignment := by
    cases catalysts with
    | none => exact show inRange (50:ℚ) from ⟨by norm_num, by norm_num⟩
    | some c => exact scoreCatalysts_inRange c direction
  have hp : inRange (score ind direction trade_type regime catalysts pwr).personal_edge := by
    cases pwr with
    | none => exact show inRange (50:ℚ) from ⟨by norm_num, by norm_num⟩
    | some w => exact hw
  have hh : inRange (score ind direction trade_type regime catalysts pwr).historical_analog :=
    show inRange (50:ℚ) from ⟨by norm_num, by norm_num⟩
  refine ⟨scoreTrend_inRange ind direction, scoreMomentum_inRange ind direction,
    scoreVolume_inRange ind direction, scoreVolatility_inRange ind trade_type,
    hr, hc, hh, hp, ?_⟩
  exact composite_inRange (scoreTrend_inRange ind direction)
    (scoreMomentum_inRange ind direction) (scoreVolume_inRange ind direction)
    (scoreVolatility_inRange ind trade_type) hr hc hh hp

/-- A snapshot used to instantiate the scorer bound. -/
def exSnapC2 : IndicatorSnapshot :=
  { price := 100, rsi_14 := some 55, rvol := some (18/10) }

/-- C2 witness: the bound evaluated at a concrete invocation. -/
theorem C2_confidence_bounded_witness :
    winRateValid (some 70) ∧
    inRange ((score exSnapC2 Direction.bullish TradeType.day_trade none none (some 70)).composite) :=
  ⟨by decide,
   (C2_confidence_bounded exSnapC2 Direction.bullish TradeType.day_trade none none
     (some 70) (by decide)).2.2.2.2.2.2.2.2⟩

-- ─── C7 ───────────────────────────────────────────────────────────────────

/-- C7 (amended): `_to_dataframe` never rejects malformed bar input: it
returns a timestamp-sorted permutation of the bars, so non-chronological
input is silently sorted and duplicate-timestamp bars are retained, and the
computation proceeds. -/
theorem C7_sorts_instead_of_rejecting (bars : List Bar) :
    List.Sorted barLe (toDataframe bars) ∧ List.Perm (toDataframe bars) bars :=
  ⟨List.sorted_insertionSort barLe bars, List.perm_insertionSort barLe bars⟩

/-- First bar of the C7 counterexample. -/
def cbar1 : Bar := ⟨0, 10, 11, 9, 10, 100⟩

/-- Second bar of the C7 counterexample. -/
def cbar2 : Bar := ⟨1, 10, 12, 9, 11, 100⟩

/-- C7 counterexample: the claim says a non-chronological bar sequence is
rejected with an explicit error; on the out-of-order input
`[cbar2, cbar1]` the engine instead silently sorts and `get_snapshot`
returns a snapshot — no error path exists in `_to_dataframe`. -/
theorem C7_counterexample :
    ¬ Chrono [cbar2, cbar1] ∧ toDataframe [cbar2, cbar1] = [cbar1, cbar2] ∧
    (getSnapshot [cbar2, cbar1]).isSome = true :=
  ⟨by decide, by decide, by decide⟩

-- ─── C4 ───────────────────────────────────────────────────────────────────

/-- The EWM recurrence keeps a positive accumulator positive on positive
inputs (the step is a convex combination for `alpha ≤ 1`). -/
theorem foldl_ewm_pos {a : ℚ} (h0 : 0 < a) (h1 : a ≤ 1) :
    ∀ (t : List ℚ) (acc : ℚ), 0 < acc → (∀ x ∈ t, 0 < x) →
      0 < t.foldl (fun acc x => acc + a * (x - acc)) acc
  | [], _, hacc, _ => hacc
  | y :: t, acc, hacc, ht => by
    have hy : 0 < y := ht y (List.mem_cons_self y t)
    have hstep : 0 < acc + a * (y - acc) := by nlinarith
    exact foldl_ewm_pos h0 h1 t _ hstep (fun x hx => ht x (List.mem_cons_of_mem y hx))

/-- An EWM of a positive series is positive. -/
theorem ewmLast_pos {a : ℚ} (h0 : 0 < a) (h1 : a ≤ 1) {xs : List ℚ}
    (hxs : ∀ x ∈ xs, 0 < x) (hne : xs ≠ []) : 0 < ewmLast a xs := by
  cases xs with
  | nil => exact absurd rfl hne
  | cons h t =>
    exact foldl_ewm_pos h0 h1 t h (hxs h (List.mem_cons_self h t))
      (fun x hx => hxs x (List.mem_cons_of_mem h hx))

/-- The last bar of a non-empty list is a member. -/
theorem lastBar_mem {bars : List Bar} (h : bars ≠ []) : lastBar bars ∈ bars := by
  unfold lastBar
  rw [List.getLast?_eq_getLast_of_ne_nil h]
  exact List.getLast_mem h

/-- Rows fetched for regime classification have positive close and positive
20-EMA whenever the source bars have positive closes. -/
theorem regimeFetch_row_pos {bars : List Bar} (hpos : ∀ b ∈ bars, 0 < b.close)
    {r : RegimeRow} (hr : r ∈ regimeFetch bars) : 0 < r.close ∧ 0 < r.ema_20 := by
  unfold regimeFetch at hr
  obtain ⟨p, hp, rfl⟩ := List.mem_map.mp hr
  obtain ⟨hpne, hsub⟩ := inits1_mem hp
  refine ⟨hpos (lastBar p) (hsub _ (lastBar_mem hpne)), ?_⟩
  show 0 < ewmLast (2/(20+1)) (closes p)
  apply ewmLast_pos (by norm_num) (by norm_num)
  · intro x hx
    obtain ⟨b, hb, rfl⟩ := List.mem_map.mp hx
    exact hpos b (hsub b hb)
  · intro hmap
    exact hpne (List.map_eq_nil_iff.mp hmap)

/-- C4: for every benchmark Bar series with positive closes, the regime
classification of `RegimeEngine._classify_regime` agrees everywhere with the
decision table as the spec states it: below 50 bars it is range-bound;
otherwise ATR% over 4 gives high-volatility; otherwise the above-count /
20-EMA-slope table decides, with range-bound the default. -/
theorem C4_regime_classification (bars : List Bar)
    (hpos : ∀ b ∈ bars, 0 < b.close) :
    classifyRegime (regimeFetch bars) = classifyRegimeSpec (regimeFetch bars) := by
  set df := regimeFetch bars with hdf
  unfold classifyRegime classifyRegimeSpec
  by_cases hlen : df.length < 50
  · simp [hlen]
  · simp only [hlen, if_false]
    cases hL : df.getLast? with
    | none => rfl
    | some latest =>
      dsimp only
      have hmem : latest ∈ df := by
        have hne : df ≠ [] := by
          intro h0
          rw [h0] at hL
          exact Option.noConfusion hL
        rw [List.getLast?_eq_getLast_of_ne_nil hne] at hL
        rw [← Option.some_inj.mp hL]
        exact List.getLast_mem hne
      have hplc : 0 < latest.close := (regimeFetch_row_pos hpos (hdf ▸ hmem)).1
      have h25 : 25 ≤ df.length := by omega
      have hago : 0 < ema20Ago df := by
        unfold ema20Ago
        cases hg : df.get? (df.length - 6) with
        | none =>
          exfalso
          rw [List.get?_eq_getElem?, List.getElem?_eq_none_iff] at hg
          omega
        | some r =>
          have hrm : r ∈ df := List.get?_mem hg
          exact (regimeFetch_row_pos hpos (hdf ▸ hrm)).2
      rw [if_pos h25, if_pos hago, if_pos hplc]

/-- A one-bar series used to instantiate C4. -/
def exBarC4 : List Bar := [⟨0, 10, 11, 9, 10, 5⟩]

/-- C4 witness: the agreement evaluated on a concrete series. -/
theorem C4_regime_classification_witness :
    (∀ b ∈ exBarC4, 0 < b.close) ∧
    classifyRegime (regimeFetch exBarC4) = classifyRegimeSpec (regimeFetch exBarC4) :=
  ⟨by decide, C4_regime_classification exBarC4 (by decide)⟩

-- ─── C6 ───────────────────────────────────────────────────────────────────

/-- The last element and the last element of `dropLast` are adjacent, so a
chain relation holds between them. -/
theorem chain_last_pair {r : α → α → Prop} :
    ∀ {xs : List α}, List.Chain' r xs → ∀ {p c : α},
      xs.dropLast.getLast? = some p → xs.getLast? = some c → r p c
  | [], _, _, _, hp, _ => nomatch hp
  | [_], _, _, _, hp, _ => nomatch hp
  | [a, b], hc, p, c, hp, hcl => by
    have hpa : p = a := by
      simpa using hp.symm
    have hcb : c = b := by
      simpa using hcl.symm
    subst hpa
    subst hcb
    exact List.chain'_cons.mp hc |>.1
  | a :: b :: z :: t, hc, p, c, hp, hcl => by
    have hp2 : (b :: z :: t).dropLast.getLast? = some p := by
      have hd : (a :: b :: z :: t).dropLast = a :: (b :: z :: t).dropLast := rfl
      rw [hd, getLast?_cons_ne (by simp)] at hp
      exact hp
    have hcl2 : (b :: z :: t).getLast? = some c := by
      rw [getLast?_cons_ne (by simp)] at hcl
      exact hcl
    exact chain_last_pair (List.Chain'.tail hc) hp2 hcl2

/-- The EWM of an all-zero series is zero. -/
theorem ewmLast_zeros (a : ℚ) :
    ∀ (xs : List ℚ), (∀ x ∈ xs, x = 0) → ewmLast a xs = 0 := by
  have hfold : ∀ (t : List ℚ), (∀ x ∈ t, x = 0) →
      t.foldl (fun acc x => acc + a * (x - acc)) 0 = 0 := by
    intro t
    induction t with
    | nil => intro _; rfl
    | cons y u ih =>
      intro hz
      have hy : y = 0 := hz y (List.mem_cons_self y u)
      have hstep : (0:ℚ) + a * (y - 0) = 0 := by rw [hy]; ring
      show (u.foldl (fun acc x => acc + a * (x - acc)) (0 + a * (y - 0))) = 0
      rw [hstep]
      exact ih (fun x hx => hz x (List.mem_cons_of_mem y hx))
  intro xs hz
  cases xs with
  | nil => rfl
  | cons h t =>
    have hh : h = 0 := hz h (List.mem_cons_self h t)
    show t.foldl (fun acc x => acc + a * (x - acc)) h = 0
    rw [hh]
    exact hfold t (fun x hx => hz x (List.mem_cons_of_mem h hx))

/-- On a non-decreasing close series the loss term of the latest row is 0. -/
theorem lossAt_zero_of_chain {xs : List ℚ} (hc : List.Chain' (· ≤ ·) xs) :
    lossAt xs = 0 := by
  unfold lossAt
  cases hL : xs.getLast? with
  | none => rfl
  | some c =>
    cases hP : xs.dropLast.getLast? with
    | none => rfl
    | some p =>
      have hle : p ≤ c := chain_last_pair hc hP hL
      have hnot : ¬(c - p < 0) := by linarith
      dsimp only
      rw [if_neg hnot]

/-- On a non-decreasing close series of at least 14 bars, the smoothed
average loss is exactly zero. -/
theorem avgLossLast_zero_of_chain {xs : List ℚ} (hc : List.Chain' (· ≤ ·) xs)
    (hlen : 14 ≤ xs.length) : avgLossLast 14 xs = some 0 := by
  unfold avgLossLast
  rw [if_pos hlen]
  congr 1
  apply ewmLast_zeros
  intro v hv
  unfold lossSeries at hv
  obtain ⟨p, hp, rfl⟩ := List.mem_map.mp hv
  obtain ⟨n, rfl⟩ := inits1_mem_take hp
  exact lossAt_zero_of_chain (List.Chain'.take hc (n + 1))

/-- C6: whenever the exponentially smoothed 14-period average loss at the
latest bar is zero (e.g. monotonically non-decreasing closes), the RSI of
the snapshot is null — `avg_loss.replace(0, nan)` turns the ratio into `NaN`
rather than yielding 100 or raising. -/
theorem C6_rsi_null_on_zero_loss (bars : List Bar) (hc : Chrono bars)
    (h0 : avgLossLast 14 (closes bars) = some 0) :
    (getSnapshot bars).map IndicatorSnapshot.rsi_14 = some none := by
  have hlen : 14 ≤ (closes bars).length := by
    by_contra hcon
    rw [avgLossLast, if_neg hcon] at h0
    exact Option.noConfusion h0
  have hne : bars ≠ [] := by
    intro h
    rw [h] at hlen
    simp [closes] at hlen
  rw [getSnapshot_eq hne hc]
  show some (safeRound 1 (rsiAt 14 (closes bars))) = some none
  unfold rsiAt
  rw [h0, avgGainLast, if_pos hlen]
  simp [safeRound]

/-- Fourteen flat bars: every delta is zero, so the average loss is zero. -/
def flatBars : List Bar :=
  [⟨0, 10, 10, 10, 10, 5⟩, ⟨1, 10, 10, 10, 10, 5⟩, ⟨2, 10, 10, 10, 10, 5⟩,
   ⟨3, 10, 10, 10, 10, 5⟩, ⟨4, 10, 10, 10, 10, 5⟩, ⟨5, 10, 10, 10, 10, 5⟩,
   ⟨6, 10, 10, 10, 10, 5⟩, ⟨7, 10, 10, 10, 10, 5⟩, ⟨8, 10, 10, 10, 10, 5⟩,
   ⟨9, 10, 10, 10, 10, 5⟩, ⟨10, 10, 10, 10, 10, 5⟩, ⟨11, 10, 10, 10, 10, 5⟩,
   ⟨12, 10, 10, 10, 10, 5⟩, ⟨13, 10, 10, 10, 10, 5⟩]

/-- C6 witness: the zero-average-loss hypothesis holds concretely and the
snapshot RSI is null. -/
theorem C6_rsi_null_on_zero_loss_witness :
    Chrono flatBars ∧ avgLossLast 14 (closes flatBars) = some 0 ∧
    (getSnapshot flatBars).map IndicatorSnapshot.rsi_14 = some none := by
  have h0 : avgLossLast 14 (closes flatBars) = some 0 :=
    avgLossLast_zero_of_chain (by simp [closes, flatBars, List.chain'_cons]) (by decide)
  exact ⟨by decide, h0, C6_rsi_null_on_zero_loss flatBars (by decide) h0⟩

-- ─── C10 ──────────────────────────────────────────────────────────────────

/-- C10: for every non-empty Bar sequence of fewer than 20 bars, the
`patterns` list of the snapshot returned by `get_snapshot` is empty — the
length guard fires before any pattern block, including the two-bar ones. -/
theorem C10_no_patterns_below_20 (bars : List Bar) (hne : bars ≠ [])
    (hlen : bars.length < 20) :
    (getSnapshot bars).map IndicatorSnapshot.patterns = some [] := by
  have hh : (rowsOf (toDataframe bars)).length < 20 := by
    rw [rowsOf_length, toDataframe_length]
    exact hlen
  rw [getSnapshot_def hne]
  show some (detectPatterns (rowsOf (toDataframe bars))) = some []
  rw [detectPatterns, if_pos hh]

/-- Two bars used to instantiate C10. -/
def exBarsC10 : List Bar := [⟨0, 10, 11, 9, 10, 100⟩, ⟨1, 10, 12, 9, 11, 150⟩]

/-- C10 witness: no pattern is emitted on a concrete two-bar series. -/
theorem C10_no_patterns_below_20_witness :
    exBarsC10.length < 20 ∧
    (getSnapshot exBarsC10).map IndicatorSnapshot.patterns = some [] :=
  ⟨by decide, C10_no_patterns_below_20 exBarsC10 (by decide) (by decide)⟩

-- ─── C1 ───────────────────────────────────────────────────────────────────

/-- `roundTo` is the identity on integers. -/
theorem roundTo_intCast (d : ℕ) (n : ℤ) : roundTo d ((n : ℤ) : ℚ) = n := by
  unfold roundTo roundHalfEven
  have hcast : ((n:ℚ) * 10^d) = ((n * 10^d : ℤ) : ℚ) := by push_cast; ring
  rw [hcast, Int.floor_intCast]
  have hfrac : ((n * 10^d : ℤ) : ℚ) - ((n * 10^d : ℤ) : ℚ) < 1/2 := by norm_num
  rw [if_pos hfrac]
  have hp : ((10:ℚ)^d) ≠ 0 := by positivity
  push_cast
  field_simp

/-- Rounding the constant relative volume 1.0 to two decimals gives 1. -/
theorem roundTo_one : roundTo 2 1 = 1 := by
  have h := roundTo_intCast 2 1
  push_cast at h
  exact h

/-- C1 (amended): for a valid non-empty chronological bar series, `rsi_14`
and `bollinger` are indeed null below their windows (14 and 20 bars), but —
contrary to the claim — below 20 bars `rvol` is the constant 1.0, `vwap`
falls back to the latest bar's typical price, `stoch_rsi` is present from 3
bars on (neutral 50), and `atr_14` and `ema_200` carry numbers from the
first bar because their EWMs run without `min_periods`. -/
theorem C1_short_series_fields (bars : List Bar) (hne : bars ≠ [])
    (hc : Chrono bars) (_hv : ValidBars bars) :
    (bars.length < 14 → (snapshotAt bars).rsi_14 = none) ∧
    (bars.length < 20 → (snapshotAt bars).bollinger = none) ∧
    (bars.length < 20 → (snapshotAt bars).rvol = some 1) ∧
    (bars.length < 20 →
      (snapshotAt bars).vwap = some (roundTo 2 (typicalPrice (lastBar bars)))) ∧
    (3 ≤ bars.length → (snapshotAt bars).stoch_rsi.isSome = true) ∧
    (snapshotAt bars).atr_14.isSome = true ∧
    (snapshotAt bars).ema_200.isSome = true ∧
    getSnapshot bars = some (snapshotAt bars) := by
  refine ⟨?_, ?_, ?_, ?_, ?_, rfl, rfl, getSnapshot_eq hne hc⟩
  · intro hlen
    have hlt : ¬(14 ≤ (closes bars).length) := by
      rw [closes, List.length_map]
      omega
    show safeRound 1 (rsiAt 14 (closes bars)) = none
    unfold rsiAt
    rw [avgGainLast, if_neg hlt]
    rfl
  · intro hlen
    have hmid : bbMiddleAt bars = none := by
      unfold bbMiddleAt rollingLastMean
      rw [if_neg]
      rw [closes, List.length_map]
      omega
    show (snapshotAt bars).bollinger = none
    unfold snapshotAt
    dsimp only
    rw [hmid]
  · intro hlen
    have hv20 : rollingLastMean 20 (volumes bars) = none := by
      unfold rollingLastMean
      rw [if_neg]
      rw [volumes, List.length_map]
      omega
    show safeRound 2 (some (rvolAt bars)) = some 1
    unfold rvolAt
    rw [hv20]
    show some (roundTo 2 1) = some 1
    rw [roundTo_one]
  · intro hlen
    have hs20 : rollingLastSum 20 (volumes bars) = none := by
      unfold rollingLastSum
      rw [if_neg]
      rw [volumes, List.length_map]
      omega
    show safeRound 2 (some (vwapAt bars)) = some (roundTo 2 (typicalPrice (lastBar bars)))
    unfold vwapAt
    rw [hs20]
    rfl
  · intro hlen
    have hk : stochKAt (closes bars) = some (qMean (lastN 3 (stochRawSeries (closes bars)))) := by
      unfold stochKAt rollingLastMean
      rw [if_pos]
      unfold stochRawSeries
      rw [List.length_map, inits1_length, closes, List.length_map]
      omega
    show (match stochKAt (closes bars) with
          | some k => some
            ({ k := orZero (safeRound 1 (some k))
               d := orZero (safeRound 1 (stochDAt (closes bars))) } : StochRSIValues)
          | none => none).isSome = true
    rw [hk]
    rfl

/-- A valid chronological 3-bar series — shorter than every window named in
the claim. -/
def exBars3 : List Bar :=
  [⟨0, 10, 12, 9, 10, 100⟩, ⟨1, 10, 13, 10, 11, 200⟩, ⟨2, 11, 14, 11, 12, 300⟩]

/-- C1 counterexample: on a valid chronological 3-bar series the claim's
five listed fields are all non-null in the `get_snapshot` output: `rvol` is
the fabricated constant 1.0, `vwap` is the latest typical price, and
`stoch_rsi`, `atr_14` and `ema_200` are present. -/
theorem C1_counterexample :
    ValidBars exBars3 ∧ Chrono exBars3 ∧ exBars3.length = 3 ∧
    (getSnapshot exBars3).map IndicatorSnapshot.rvol = some (some (roundTo 2 1)) ∧
    roundTo 2 1 = 1 ∧
    (getSnapshot exBars3).map IndicatorSnapshot.vwap
      = some (some (roundTo 2 (typicalPrice (lastBar exBars3)))) ∧
    (getSnapshot exBars3).map (fun s => s.stoch_rsi.isSome) = some true ∧
    (getSnapshot exBars3).map (fun s => s.atr_14.isSome) = some true ∧
    (getSnapshot exBars3).map (fun s => s.ema_200.isSome) = some true :=
  ⟨by decide, by decide, rfl, rfl, roundTo_one, rfl, rfl, rfl, rfl⟩

/-- C1 witness: the amended statement evaluated on the same concrete series. -/
theorem C1_short_series_fields_witness :
    exBars3 ≠ [] ∧ Chrono exBars3 ∧ ValidBars exBars3 ∧
    exBars3.length < 14 ∧ exBars3.length < 20 ∧
    (snapshotAt exBars3).rsi_14 = none ∧ (snapshotAt exBars3).bollinger = none := by
  have h := C1_short_series_fields exBars3 (by decide) (by decide) (by decide)
  exact ⟨by decide, by decide, by decide, by decide, by decide,
    h.1 (by decide), h.2.1 (by decide)⟩

-- ─── C3 ───────────────────────────────────────────────────────────────────

/-- A breakdown with every sub-score equal to `x`. -/
def constBreakdown (x : ℚ) : ConfidenceBreakdown := ⟨x, x, x, x, x, x, x, x⟩

/-- The composite of a constant breakdown is the constant rounded to one
decimal (the weights sum to 1). -/
theorem constBreakdown_composite (x : ℚ) :
    (constBreakdown x).composite = roundTo 1 x := by
  unfold constBreakdown ConfidenceBreakdown.composite
  congr 1
  ring

/-- The composite of an all-`n` breakdown for an integer `n`. -/
theorem constBreakdown_composite_int (n : ℤ) :
    (constBreakdown ((n : ℤ) : ℚ)).composite = n := by
  rw [constBreakdown_composite, roundTo_intCast]

/-- All-85 confidence breakdown. -/
def cse85 : ConfidenceBreakdown := constBreakdown 85

/-- All-40 confidence breakdown. -/
def cse40 : ConfidenceBreakdown := constBreakdown 40

/-- All-65 confidence breakdown. -/
def cse65 : ConfidenceBreakdown := constBreakdown 65

/-- The composite of the all-85 breakdown. -/
theorem cse85_composite : cse85.composite = 85 := by
  have h := constBreakdown_composite_int 85
  push_cast at h
  exact h

/-- The composite of the all-40 breakdown. -/
theorem cse40_composite : cse40.composite = 40 := by
  have h := constBreakdown_composite_int 40
  push_cast at h
  exact h

/-- The composite of the all-65 breakdown. -/
theorem cse65_composite : cse65.composite = 65 := by
  have h := constBreakdown_composite_int 65
  push_cast at h
  exact h

/-- A minimal snapshot (every optional field absent). -/
def exSnap100 : IndicatorSnapshot := { price := 100 }

/-- C3 (amended): with composite 85, horizon day-trade, direction bullish
and no earnings within 3 days, the selector returns `long_call` with the
day-trade structure text; and with composite 40 on the day-trade horizon
(no earnings within 3 days) it returns `stock_only` for every direction, IV
rank and catalyst risk.  (The claim's unrestricted second half is false: the
swing horizon returns spreads or condors at composite 40.) -/
theorem C3_selector :
    (∀ (ind : IndicatorSnapshot) (conf : ConfidenceBreakdown) (risk : EventRisk)
        (dte : Option ℤ), conf.composite = 85 → (∀ d, dte = some d → 3 < d) →
      (recommend TradeType.day_trade Direction.bullish ind conf risk dte).strategy
          = OptionsStrategy.long_call ∧
      (recommend TradeType.day_trade Direction.bullish ind conf risk dte).structureText
          = "Buy ATM or slightly OTM call, 0-2 DTE for gamma. Target 50% profit, stop at 30%.") ∧
    (∀ (direction : Direction) (ind : IndicatorSnapshot) (conf : ConfidenceBreakdown)
        (risk : EventRisk) (dte : Option ℤ), conf.composite = 40 →
      (∀ d, dte = some d → 3 < d) →
      (recommend TradeType.day_trade direction ind conf risk dte).strategy
          = OptionsStrategy.stock_only) := by
  have hday : ∀ (direction : Direction) (ind : IndicatorSnapshot)
      (conf : ConfidenceBreakdown) (risk : EventRisk) (dte : Option ℤ),
      (∀ d, dte = some d → 3 < d) →
      recommend TradeType.day_trade direction ind conf risk dte
        = dayTradeStrategy direction (orFifty ind.iv_rank) conf.composite := by
    intro direction ind conf risk dte hdte
    unfold recommend
    cases dte with
    | none => rfl
    | some d =>
      have h3 : ¬(d ≤ 3) := by
        have := hdte d rfl
        omega
      simp [h3]
  constructor
  · intro ind conf risk dte hconf hdte
    rw [hday Direction.bullish ind conf risk dte hdte, hconf]
    unfold dayTradeStrategy
    rw [if_pos (⟨by decide, by decide⟩ :
      (70:ℚ) ≤ 85 ∧ Direction.bullish ≠ Direction.neutral)]
    refine ⟨rfl, ?_⟩
    show "Buy ATM or slightly OTM " ++
        (if Direction.bullish = Direction.bullish then "call" else "put") ++
        ", 0-2 DTE for gamma. Target 50% profit, stop at 30%."
      = "Buy ATM or slightly OTM call, 0-2 DTE for gamma. Target 50% profit, stop at 30%."
    decide
  · intro direction ind conf risk dte hconf hdte
    rw [hday direction ind conf risk dte hdte, hconf]
    unfold dayTradeStrategy
    rw [if_neg (fun h => absurd h.1 (by decide)),
      if_neg (fun h => absurd h.1 (by decide))]

/-- C3 counterexample: with composite 40 but the swing horizon (bullish,
default mid IV), the selector returns `bull_call_spread`, not the
`stock_only` the claim demands for every combination of remaining inputs. -/
theorem C3_counterexample :
    cse40.composite = 40 ∧
    (recommend TradeType.swing Direction.bullish exSnap100 cse40
      EventRisk.low none).strategy = OptionsStrategy.bull_call_spread := by
  refine ⟨cse40_composite, ?_⟩
  show (swingStrategy Direction.bullish 50 cse40.composite).strategy
      = OptionsStrategy.bull_call_spread
  rw [cse40_composite]
  unfold swingStrategy
  rw [if_neg (by decide : ¬((60:ℚ) ≤ 50))]
  unfold swingLowIV
  rw [if_neg (by decide : ¬((50:ℚ) < 30))]
  unfold swingMidIV
  rw [if_neg (fun h => absurd h.1 (by decide)),
    if_pos (by decide : Direction.bullish ≠ Direction.neutral)]
  rfl

/-- C3 witness: the amended statement evaluated concretely on both halves. -/
theorem C3_selector_witness :
    cse85.composite = 85 ∧ cse40.composite = 40 ∧
    (recommend TradeType.day_trade Direction.bullish exSnap100 cse85
      EventRisk.low none).strategy = OptionsStrategy.long_call ∧
    (recommend TradeType.day_trade Direction.bullish exSnap100 cse85
      EventRisk.low none).structureText
        = "Buy ATM or slightly OTM call, 0-2 DTE for gamma. Target 50% profit, stop at 30%." ∧
    (recommend TradeType.day_trade Direction.bearish exSnap100 cse40
      EventRisk.high none).strategy = OptionsStrategy.stock_only := by
  have h1 := (C3_selector.1 exSnap100 cse85 EventRisk.low none cse85_composite
    (fun d h => nomatch h))
  have h2 := C3_selector.2 Direction.bearish exSnap100 cse40 EventRisk.high none
    cse40_composite (fun d h => nomatch h)
  exact ⟨cse85_composite, cse40_composite, h1.1, h1.2, h2⟩

-- ─── C8 ───────────────────────────────────────────────────────────────────

/-- C8 (amended): whenever `days_to_earnings` is given and at most 3, the
recommendation is produced by `_earnings_play` before any horizon branching,
and the returned strategy is one of strangle (not straddle), iron_condor, or
a long option. -/
theorem C8_earnings_override (trade_type : TradeType) (direction : Direction)
    (ind : IndicatorSnapshot) (conf : ConfidenceBreakdown) (risk : EventRisk)
    (d : ℤ) (hd : d ≤ 3) :
    recommend trade_type direction ind conf risk (some d)
      = earningsPlay direction (orFifty ind.iv_rank) conf.composite ∧
    (recommend trade_type direction ind conf risk (some d)).strategy ∈
      [OptionsStrategy.strangle, OptionsStrategy.iron_condor,
       OptionsStrategy.long_call, OptionsStrategy.long_put] := by
  have h1 : recommend trade_type direction ind conf risk (some d)
      = earningsPlay direction (orFifty ind.iv_rank) conf.composite := by
    unfold recommend
    simp [hd]
  refine ⟨h1, ?_⟩
  rw [h1]
  unfold earningsPlay
  split
  · simp
  · split
    · split <;> simp
    · simp

/-- C8 counterexample: direction bullish with composite 65 and earnings in 3
days yields `strangle`, which is not in the claim's
straddle/iron-condor/long-option set. -/
theorem C8_counterexample :
    (recommend TradeType.day_trade Direction.bullish exSnap100 cse65
      EventRisk.low (some 3)).strategy = OptionsStrategy.strangle ∧
    OptionsStrategy.strangle ∉ [OptionsStrategy.straddle, OptionsStrategy.iron_condor,
      OptionsStrategy.long_call, OptionsStrategy.long_put] := by
  constructor
  · show (earningsPlay Direction.bullish 50 cse65.composite).strategy
        = OptionsStrategy.strangle
    rw [cse65_composite]
    unfold earningsPlay
    rw [if_neg (by decide :
        ¬(Direction.bullish = Direction.neutral ∨ (65:ℚ) < 60)),
      if_neg (by decide : ¬((70:ℚ) ≤ 65))]
  · decide

/-- C8 witness: the override evaluated at a concrete input. -/
theorem C8_earnings_override_witness :
    (3:ℤ) ≤ 3 ∧
    recommend TradeType.swing Direction.neutral exSnap100 cse65 EventRisk.low (some 3)
      = earningsPlay Direction.neutral (orFifty exSnap100.iv_rank) cse65.composite ∧
    (recommend TradeType.swing Direction.neutral exSnap100 cse65 EventRisk.low
      (some 3)).strategy ∈ [OptionsStrategy.strangle, OptionsStrategy.iron_condor,
        OptionsStrategy.long_call, OptionsStrategy.long_put] := by
  have h := C8_earnings_override TradeType.swing Direction.neutral exSnap100 cse65
    EventRisk.low 3 (by decide)
  exact ⟨by decide, h.1, h.2⟩

-- ─── C9 ───────────────────────────────────────────────────────────────────

/-- Names rule 1 can fire. -/
theorem yieldCurveSignals_names {t s : Option InstrumentMetrics} {x : CrossSignal}
    (hx : x ∈ yieldCurveSignals t s) :
    x.signal = "YIELD CURVE STEEPENING" ∨
    x.signal = "YIELD CURVE FLATTENING/INVERSION PRESSURE" := by
  unfold yieldCurveSignals at hx
  dsimp only at hx
  split at hx
  · split at hx
    · exact Or.inl (congrArg CrossSignal.signal (List.mem_singleton.mp hx))
    · split at hx
      · exact Or.inr (congrArg CrossSignal.signal (List.mem_singleton.mp hx))
      · exact absurd hx (List.not_mem_nil x)
  · exact absurd hx (List.not_mem_nil x)

/-- Names rule 2 can fire. -/
theorem creditSignals_names {h l : Option InstrumentMetrics} {x : CrossSignal}
    (hx : x ∈ creditSignals h l) :
    x.signal = "CREDIT STRESS: FLIGHT TO QUALITY" ∨
    x.signal = "BROAD CREDIT SELLOFF" := by
  unfold creditSignals at hx
  dsimp only at hx
  split at hx
  · split at hx
    · exact Or.inl (congrArg CrossSignal.signal (List.mem_singleton.mp hx))
    · split at hx
      · exact Or.inr (congrArg CrossSignal.signal (List.mem_singleton.mp hx))
      · exact absurd hx (List.not_mem_nil x)
  · exact absurd hx (List.not_mem_nil x)

/-- Names rule 3 can fire. -/
theorem riskAppetiteSignals_names {h t : Option InstrumentMetrics} {x : CrossSignal}
    (hx : x ∈ riskAppetiteSignals h t) :
    x.signal = "RISK-OFF: TREASURIES OVER CREDIT" ∨
    x.signal = "RISK-ON: CREDIT OVER TREASURIES" := by
  unfold riskAppetiteSignals at hx
  dsimp only at hx
  split at hx
  · split at hx
    · exact Or.inl (congrArg CrossSignal.signal (List.mem_singleton.mp hx))
    · split at hx
      · exact Or.inr (congrArg CrossSignal.signal (List.mem_singleton.mp hx))
      · exact absurd hx (List.not_mem_nil x)
  · exact absurd hx (List.not_mem_nil x)

/-- Names rule 4 can fire. -/
theorem goldSignals_names {g : Option InstrumentMetrics} {x : CrossSignal}
    (hx : x ∈ goldSignals g) :
    x.signal = "GOLD BREAKOUT — FEAR/INFLATION BID" ∨
    x.signal = "GOLD SELLOFF — RISK-ON OR DOLLAR STRENGTH" := by
  unfold goldSignals at hx
  split at hx
  · split at hx
    · exact Or.inl (congrArg CrossSignal.signal (List.mem_singleton.mp hx))
    · split at hx
      · exact Or.inr (congrArg CrossSignal.signal (List.mem_singleton.mp hx))
      · exact absurd hx (List.not_mem_nil x)
  · exact absurd hx (List.not_mem_nil x)

/-- Names rule 5 can fire. -/
theorem dollarSignals_names {u : Option InstrumentMetrics} {x : CrossSignal}
    (hx : x ∈ dollarSignals u) :
    x.signal = "DOLLAR STRENGTHENING" ∨ x.signal = "DOLLAR WEAKENING" := by
  unfold dollarSignals at hx
  split at hx
  · split at hx
    · exact Or.inl (congrArg CrossSignal.signal (List.mem_singleton.mp hx))
    · split at hx
      · exact Or.inr (congrArg CrossSignal.signal (List.mem_singleton.mp hx))
      · exact absurd hx (List.not_mem_nil x)
  · exact absurd hx (List.not_mem_nil x)

/-- Names rule 6 can fire. -/
theorem breadthSignals_names {i r : Option InstrumentMetrics} {x : CrossSignal}
    (hx : x ∈ breadthSignals i r) :
    x.signal = "BREADTH DETERIORATION — SMALL CAPS LEADING DOWN" ∨
    x.signal = "BROAD PARTICIPATION — HEALTHY BREADTH" := by
  unfold breadthSignals at hx
  split at hx
  · split at hx
    · exact Or.inl (congrArg CrossSignal.signal (List.mem_singleton.mp hx))
    · split at hx
      · exact Or.inr (congrArg CrossSignal.signal (List.mem_singleton.mp hx))
      · exact absurd hx (List.not_mem_nil x)
  · exact absurd hx (List.not_mem_nil x)

/-- Names rule 7 can fire. -/
theorem oilSignals_names {u : Option InstrumentMetrics} {x : CrossSignal}
    (hx : x ∈ oilSignals u) :
    x.signal = "OIL SPIKE — INFLATION/GEOPOLITICAL RISK" ∨
    x.signal = "OIL DECLINE — DEMAND DESTRUCTION FEAR" := by
  unfold oilSignals at hx
  split at hx
  · split at hx
    · exact Or.inl (congrArg CrossSignal.signal (List.mem_singleton.mp hx))
    · split at hx
      · exact Or.inr (congrArg CrossSignal.signal (List.mem_singleton.mp hx))
      · exact absurd hx (List.not_mem_nil x)
  · exact absurd hx (List.not_mem_nil x)

/-- C9: with HYG down 1.5% and LQD down 0.8% on the week, the credit rule
fires BROAD CREDIT SELLOFF (both declining) and FLIGHT TO QUALITY does not
fire anywhere — its spread condition `lqd - hyg > 1` fails at 0.7. -/
theorem C9_credit_selloff (inst : Instruments) (hm lm : InstrumentMetrics)
    (hh : inst.hyg = some hm) (hw : hm.change_1w = -(3/2))
    (hl : inst.lqd = some lm) (lw : lm.change_1w = -(4/5)) :
    (∃ x ∈ computeCrossSignals inst, x.signal = "BROAD CREDIT SELLOFF") ∧
    (∀ x ∈ computeCrossSignals inst,
      x.signal ≠ "CREDIT STRESS: FLIGHT TO QUALITY") := by
  have hcr : creditSignals inst.hyg inst.lqd
      = [{ signal := "BROAD CREDIT SELLOFF", severity := "high" }] := by
    rw [hh, hl]
    unfold creditSignals
    dsimp only
    rw [hw, lw]
    rw [if_neg (by norm_num), if_pos (by constructor <;> norm_num)]
  constructor
  · refine ⟨{ signal := "BROAD CREDIT SELLOFF", severity := "high" }, ?_, rfl⟩
    unfold computeCrossSignals
    rw [hcr]
    simp
  · intro x hx
    unfold computeCrossSignals at hx
    simp only [List.mem_append] at hx
    rcases hx with ((((((h1 | h2) | h3) | h4) | h5) | h6) | h7)
    · rcases yieldCurveSignals_names h1 with h | h <;> (rw [h]; decide)
    · rw [hcr] at h2
      rw [List.mem_singleton.mp h2]
      decide
    · rcases riskAppetiteSignals_names h3 with h | h <;> (rw [h]; decide)
    · rcases goldSignals_names h4 with h | h <;> (rw [h]; decide)
    · rcases dollarSignals_names h5 with h | h <;> (rw [h]; decide)
    · rcases breadthSignals_names h6 with h | h <;> (rw [h]; decide)
    · rcases oilSignals_names h7 with h | h <;> (rw [h]; decide)

/-- Concrete HYG metrics: down 1.5% on the week. -/
def exHyg : InstrumentMetrics :=
  { change_1d := 0, change_1w := -(3/2), change_1m := 0, rsi_14 := none, trend := "bearish" }

/-- Concrete LQD metrics: down 0.8% on the week. -/
def exLqd : InstrumentMetrics :=
  { change_1d := 0, change_1w := -(4/5), change_1m := 0, rsi_14 := none, trend := "bearish" }

/-- Instruments with only the two credit ETFs available. -/
def exInst : Instruments := { hyg := some exHyg, lqd := some exLqd }

/-- C9 witness: the detector evaluated at the concrete credit scenario. -/
theorem C9_credit_selloff_witness :
    exInst.hyg = some exHyg ∧ exHyg.change_1w = -(3/2) ∧
    exInst.lqd = some exLqd ∧ exLqd.change_1w = -(4/5) ∧
    ((∃ x ∈ computeCrossSignals exInst, x.signal = "BROAD CREDIT SELLOFF") ∧
     (∀ x ∈ computeCrossSignals exInst,
       x.signal ≠ "CREDIT STRESS: FLIGHT TO QUALITY")) :=
  ⟨rfl, rfl, rfl, rfl, C9_credit_selloff exInst exHyg exLqd rfl rfl rfl rfl⟩

-- ─── C5 ───────────────────────────────────────────────────────────────────

/-- Names the EMA-stack block can emit. -/
theorem emaStackPats_names {r : Row} {x : String} (hx : x ∈ emaStackPats r) :
    x = "ema_stack_bullish" ∨ x = "ema_stack_bearish" := by
  unfold emaStackPats at hx
  split at hx
  · split at hx
    · exact Or.inl (List.mem_singleton.mp hx)
    · split at hx
      · exact Or.inr (List.mem_singleton.mp hx)
      · exact absurd hx (List.not_mem_nil x)
  · exact absurd hx (List.not_mem_nil x)

/-- Names the MACD-crossover block can emit. -/
theorem macdPats_names {p l : Row} {x : String} (hx : x ∈ macdPats p l) :
    x = "macd_bullish_crossover" ∨ x = "macd_bearish_crossover" := by
  unfold macdPats at hx
  split at hx
  · split at hx
    · exact Or.inl (List.mem_singleton.mp hx)
    · split at hx
      · exact Or.inr (List.mem_singleton.mp hx)
      · exact absurd hx (List.not_mem_nil x)
  · exact absurd hx (List.not_mem_nil x)

/-- Names the RSI-extremes block can emit. -/
theorem rsiPats_names {r : Row} {x : String} (hx : x ∈ rsiPats r) :
    x = "rsi_overbought" ∨ x = "rsi_oversold" := by
  unfold rsiPats at hx
  split at hx
  · split at hx
    · exact Or.inl (List.mem_singleton.mp hx)
    · split at hx
      · exact Or.inr (List.mem_singleton.mp hx)
      · exact absurd hx (List.not_mem_nil x)
  · exact absurd hx (List.not_mem_nil x)

/-- Name the squeeze block can emit. -/
theorem squeezePats_names {r : Row} {x : String} (hx : x ∈ squeezePats r) :
    x = "bollinger_squeeze" := by
  unfold squeezePats at hx
  split at hx
  · exact List.mem_singleton.mp hx
  · exact absurd hx (List.not_mem_nil x)

/-- Names the volume block can emit. -/
theorem volumePats_names {r : Row} {x : String} (hx : x ∈ volumePats r) :
    x = "volume_breakout" ∨ x = "elevated_volume" := by
  unfold volumePats at hx
  split at hx
  · split at hx
    · exact Or.inl (List.mem_singleton.mp hx)
    · split at hx
      · exact Or.inr (List.mem_singleton.mp hx)
      · exact absurd hx (List.not_mem_nil x)
  · exact absurd hx (List.not_mem_nil x)

/-- Names the VWAP block can emit. -/
theorem vwapPats_names {p l : Row} {x : String} (hx : x ∈ vwapPats p l) :
    x = "vwap_reclaim" ∨ x = "vwap_rejection" := by
  unfold vwapPats at hx
  split at hx
  · split at hx
    · exact Or.inl (List.mem_singleton.mp hx)
    · split at hx
      · exact Or.inr (List.mem_singleton.mp hx)
      · exact absurd hx (List.not_mem_nil x)
  · exact absurd hx (List.not_mem_nil x)

/-- Names the ADX strong-trend block can emit. -/
theorem adxPats_names {r : Row} {x : String} (hx : x ∈ adxPats r) :
    x = "strong_uptrend" ∨ x = "strong_downtrend" := by
  unfold adxPats at hx
  split at hx
  · split at hx
    · split at hx
      · split at hx
        · exact Or.inl (List.mem_singleton.mp hx)
        · split at hx
          · exact Or.inr (List.mem_singleton.mp hx)
          · exact absurd hx (List.not_mem_nil x)
      · exact absurd hx (List.not_mem_nil x)
    · exact absurd hx (List.not_mem_nil x)
  · exact absurd hx (List.not_mem_nil x)

/-- Names the divergence block can emit. -/
theorem divPats_names {r : Row} {x : String} (hx : x ∈ divPats r) :
    x = "bullish_divergence" ∨ x = "bearish_divergence" := by
  unfold divPats at hx
  split at hx
  · exact Or.inl (List.mem_singleton.mp hx)
  · exact Or.inr (List.mem_singleton.mp hx)
  · exact absurd hx (List.not_mem_nil x)

/-- Exact firing condition of the golden-cross tag at the block level:
non-strict `<=` on the previous bar, strict `>` on the latest. -/
theorem crossPats_golden_iff {prev latest : Row} :
    "golden_cross" ∈ crossPats prev latest ↔
      ∃ l50 l200 p50 p200,
        latest.ema_50 = some l50 ∧ latest.ema_200 = some l200 ∧
        prev.ema_50 = some p50 ∧ prev.ema_200 = some p200 ∧
        p50 ≤ p200 ∧ l200 < l50 := by
  constructor
  · intro hx
    unfold crossPats at hx
    split at hx
    next l50 l200 p50 p200 h1 h2 h3 h4 =>
      split at hx
      next hcond =>
        exact ⟨l50, l200, p50, p200, h1, h2, h3, h4, hcond.1, hcond.2⟩
      next =>
        split at hx
        · exact absurd (List.mem_singleton.mp hx) (by decide)
        · exact absurd hx (List.not_mem_nil _)
    next => exact absurd hx (List.not_mem_nil _)
  · rintro ⟨l50, l200, p50, p200, h1, h2, h3, h4, h5, h6⟩
    unfold crossPats
    rw [h1, h2, h3, h4]
    dsimp only
    rw [if_pos ⟨h5, h6⟩]
    exact List.mem_singleton.mpr rfl

/-- Exact firing condition of the death-cross tag at the block level. -/
theorem crossPats_death_iff {prev latest : Row} :
    "death_cross" ∈ crossPats prev latest ↔
      ∃ l50 l200 p50 p200,
        latest.ema_50 = some l50 ∧ latest.ema_200 = some l200 ∧
        prev.ema_50 = some p50 ∧ prev.ema_200 = some p200 ∧
        p200 ≤ p50 ∧ l50 < l200 := by
  constructor
  · intro hx
    unfold crossPats at hx
    split at hx
    next l50 l200 p50 p200 h1 h2 h3 h4 =>
      split at hx
      next =>
        exact absurd (List.mem_singleton.mp hx) (by decide)
      next =>
        split at hx
        next hcond =>
          exact ⟨l50, l200, p50, p200, h1, h2, h3, h4, hcond.1, hcond.2⟩
        next => exact absurd hx (List.not_mem_nil _)
    next => exact absurd hx (List.not_mem_nil _)
  · rintro ⟨l50, l200, p50, p200, h1, h2, h3, h4, h5, h6⟩
    unfold crossPats
    rw [h1, h2, h3, h4]
    dsimp only
    rw [if_neg (fun hcontra => absurd hcontra.2 (lt_asymm h6)), if_pos ⟨h5, h6⟩]
    exact List.mem_singleton.mpr rfl

/-- On a frame of at least 20 rows, `_detect_patterns` is the concatenation
of its nine blocks over the last and second-to-last rows. -/
theorem detectPatterns_decomp (pre : List Row) (prev latest : Row)
    (hlen : 18 ≤ pre.length) :
    detectPatterns (pre ++ [prev, latest]) =
      emaStackPats latest ++ crossPats prev latest ++ macdPats prev latest ++
      rsiPats latest ++ squeezePats latest ++ volumePats latest ++
      vwapPats prev latest ++ adxPats latest ++ divPats latest := by
  have hL : (pre ++ [prev, latest]).length = pre.length + 2 := by simp
  have hnotlt : ¬((pre ++ [prev, latest]).length < 20) := by
    rw [hL]
    omega
  have hlast : (pre ++ [prev, latest]).getLast? = some latest := by simp
  have hprev : (pre ++ [prev, latest]).get? ((pre ++ [prev, latest]).length - 2)
      = some prev := by
    rw [List.get?_eq_getElem?, hL]
    have h2 : pre.length + 2 - 2 = pre.length := by omega
    rw [h2, List.getElem?_append_right (le_refl pre.length)]
    simp
  unfold detectPatterns
  rw [if_neg hnotlt, hlast, hprev]

/-- Only the cross block can emit either cross tag, so membership in the
pattern list is membership in that block. -/
theorem cross_string_mem_iff (pre : List Row) (prev latest : Row)
    (hlen : 18 ≤ pre.length) {s : String}
    (hs : s = "golden_cross" ∨ s = "death_cross") :
    s ∈ detectPatterns (pre ++ [prev, latest]) ↔ s ∈ crossPats prev latest := by
  rw [detectPatterns_decomp pre prev latest hlen]
  simp only [List.mem_append]
  constructor
  · rintro ((((((((h | h) | h) | h) | h) | h) | h) | h) | h)
    · exfalso
      rcases emaStackPats_names h with rfl | rfl <;> rcases hs with h2 | h2 <;> simp at h2
    · exact h
    · exfalso
      rcases macdPats_names h with rfl | rfl <;> rcases hs with h2 | h2 <;> simp at h2
    · exfalso
      rcases rsiPats_names h with rfl | rfl <;> rcases hs with h2 | h2 <;> simp at h2
    · exfalso
      have hn := squeezePats_names h
      subst hn
      rcases hs with h2 | h2 <;> simp at h2
    · exfalso
      rcases volumePats_names h with rfl | rfl <;> rcases hs with h2 | h2 <;> simp at h2
    · exfalso
      rcases vwapPats_names h with rfl | rfl <;> rcases hs with h2 | h2 <;> simp at h2
    · exfalso
      rcases adxPats_names h with rfl | rfl <;> rcases hs with h2 | h2 <;> simp at h2
    · exfalso
      rcases divPats_names h with rfl | rfl <;> rcases hs with h2 | h2 <;> simp at h2
  · intro h
    exact Or.inl (Or.inl (Or.inl (Or.inl (Or.inl (Or.inl (Or.inl (Or.inr h)))))))

/-- C5 (amended): on every transition (frame of at least 20 rows), the two
cross tags are mutually exclusive, and each fires exactly on a half-strict
flip: golden when the previous bar had `EMA50 <= EMA200` (equality counts)
and the latest has `EMA50 > EMA200` strictly; death symmetrically.  (The
claim's "strictly below on the previous bar" is refuted separately.) -/
theorem C5_cross_transition (pre : List Row) (prev latest : Row)
    (hlen : 18 ≤ pre.length) :
    ¬("golden_cross" ∈ detectPatterns (pre ++ [prev, latest]) ∧
      "death_cross" ∈ detectPatterns (pre ++ [prev, latest])) ∧
    ("golden_cross" ∈ detectPatterns (pre ++ [prev, latest]) ↔
      ∃ l50 l200 p50 p200,
        latest.ema_50 = some l50 ∧ latest.ema_200 = some l200 ∧
        prev.ema_50 = some p50 ∧ prev.ema_200 = some p200 ∧
        p50 ≤ p200 ∧ l200 < l50) ∧
    ("death_cross" ∈ detectPatterns (pre ++ [prev, latest]) ↔
      ∃ l50 l200 p50 p200,
        latest.ema_50 = some l50 ∧ latest.ema_200 = some l200 ∧
        prev.ema_50 = some p50 ∧ prev.ema_200 = some p200 ∧
        p200 ≤ p50 ∧ l50 < l200) := by
  have hg := (cross_string_mem_iff pre prev latest hlen (Or.inl rfl)).trans
    crossPats_golden_iff
  have hd := (cross_string_mem_iff pre prev latest hlen (Or.inr rfl)).trans
    crossPats_death_iff
  refine ⟨?_, hg, hd⟩
  rintro ⟨h1, h2⟩
  obtain ⟨a, b, _, _, ha1, hb1, _, _, _, hab⟩ := hg.mp h1
  obtain ⟨a2, b2, _, _, ha2, hb2, _, _, _, hab2⟩ := hd.mp h2
  rw [ha1] at ha2
  rw [hb1] at hb2
  obtain rfl := Option.some_inj.mp ha2
  obtain rfl := Option.some_inj.mp hb2
  exact absurd hab2 (lt_asymm hab)

/-- An inert row: every optional column absent. -/
def zRow : Row :=
  { close := 0, ema_9 := none, ema_20 := none, ema_50 := none, ema_200 := none,
    macd_line := none, macd_signal := none, rsi_14 := none, bb_squeeze := false,
    rvol := none, vwap := none, adx_14 := none, rsi_divergence := DivTag.divNone }

/-- Previous row of the C5 counterexample: `EMA50 = EMA200` exactly. -/
def prevRowEx : Row :=
  { zRow with ema_9 := some 1, ema_20 := some 2, ema_50 := some 10, ema_200 := some 10 }

/-- Latest row of the C5 counterexample: `EMA50 > EMA200`. -/
def latestRowEx : Row :=
  { zRow with ema_9 := some 1, ema_20 := some 2, ema_50 := some 11, ema_200 := some 10 }

/-- A 20-row frame ending in the equality-then-above transition. -/
def exRows : List Row := List.replicate 18 zRow ++ [prevRowEx, latestRowEx]

/-- C5 counterexample: the claim says golden_cross fires only when EMA50 was
*strictly below* EMA200 on the previous bar; here the previous bar has them
*equal* and golden_cross still fires (and death_cross does not). -/
theorem C5_counterexample :
    prevRowEx.ema_50 = prevRowEx.ema_200 ∧
    "golden_cross" ∈ detectPatterns exRows ∧
    "death_cross" ∉ detectPatterns exRows := by
  refine ⟨rfl, ?_, ?_⟩ <;> decide

/-- C5 witness: the amended statement evaluated on the concrete frame. -/
theorem C5_cross_transition_witness :
    18 ≤ (List.replicate 18 zRow).length ∧
    ¬("golden_cross" ∈ detectPatterns (List.replicate 18 zRow ++ [prevRowEx, latestRowEx]) ∧
      "death_cross" ∈ detectPatterns (List.replicate 18 zRow ++ [prevRowEx, latestRowEx])) := by
  have h := C5_cross_transition (List.replicate 18 zRow) prevRowEx latestRowEx (by decide)
  exact ⟨by decide, h.1⟩

end TradePilot
